import Mathlib

/-!
# SSL parameter file lifecycle (src/master/ssl-init.c) and OpenSSL global
reference counting (src/lib-ssl-iostream/dovecot-openssl-common.c)

The master process is embedded as explicit state passing. Everything the C
code obtains from the operating system (the result of `lstat`, the outcome of
`unlink` and `fork`, the clock, the process identity) is an input of the model.

Integer conventions: the `unsigned int` product
`ssl_parameters_regenerate*3600` wraps modulo `2^32`; `time_t` is a
two's-complement integer of `time_t_bits` bits, and the conversion to it and
the sum `st_mtime + ...` wrap to that width; the `int` reference count is a
32-bit two's-complement integer and wraps as well. File sizes, clock readings
and ids are inputs and are taken as given.
-/

namespace SslInit

/-- The fields of `struct stat` that ssl-init.c reads. -/
structure stat where
  st_size : Int
  st_mtime : Int
  st_uid : Nat
  st_gid : Nat
deriving DecidableEq

/-- The errno value for "no such file or directory". -/
def ENOENT : Nat := 2

/-- Outcome of `lstat(path, &st)`: return value 0 with the buffer filled in, or
a negative return value with `errno` set (the buffer is then left as it was). -/
inductive lstat_result where
  | ok (st : stat)
  | fail (errno : Nat)
deriving DecidableEq

/-- The fields of `struct settings` that ssl-init.c reads.
`ssl_parameters_regenerate` is an `unsigned int` number of hours. -/
structure settings where
  ssl_disable : Bool
  login_dir : String
  ssl_parameters_regenerate : Nat
deriving DecidableEq

/-- One node of the `settings_root` list: the imap and pop3 settings pointers,
either of which may be NULL. -/
structure server_settings where
  imap : Option settings
  pop3 : Option settings
deriving DecidableEq

/-- Externally visible actions of the master process, in program order. -/
inductive event where
  | lstat (path : String)
  | unlink (path : String)
  | fork (fname : String) (pid : Option Nat)
  | i_error_lstat (path : String)
  | i_error_fork
  | i_info_first_time
  | timeout_add (msecs : Nat)
deriving DecidableEq

/-- State of the master process as far as ssl-init.c is concerned: the static
`generating` flag, the pids registered with `PID_ADD_PROCESS_TYPE` as
`PROCESS_TYPE_SSL_PARAM` and not yet reported as exited, the filesystem as seen
by `lstat`, and the actions performed so far (oldest first). -/
structure master where
  generating : Bool
  children : List Nat
  fs : String → lstat_result
  events : List event

/-- What one activation of `check_parameters_file_set` receives from outside
the program state: the indeterminate initial contents of its local
`struct stat st`, whether `unlink` removes the file, and the value `fork`
returns in the parent (`none` is -1, `some pid` the pid of the child). -/
structure frame where
  st : stat
  unlink_ok : Bool
  fork : Option Nat

/-- Process-wide inputs of one scheduler pass: the clock `ioloop_time`,
`master_uid`, the value of `getegid()`, the file name macro
`SSL_PARAMETERS_FILENAME`, and the frame of the i-th activation of
`check_parameters_file_set` within the pass; `time_t_bits` is the width of the
platform's `time_t` (64 on LP64 systems). -/
structure environment where
  time_t_bits : Nat
  ioloop_time : Int
  master_uid : Nat
  egid : Nat
  SSL_PARAMETERS_FILENAME : String
  frames : Nat → frame

/-- Append one action to the record of actions. -/
def emit (e : event) (s : master) : master :=
  { s with events := s.events ++ [e] }

/-- Parent side of `start_generate_process` (lines 45-64): a failed fork is
logged and changes nothing else; a successful fork sets `generating` and
registers the child pid. The child side runs in another process. -/
def start_generate_process (fr : frame) (fname : String) (s : master) : master :=
  match fr.fork with
  | none => emit event.i_error_fork (emit (event.fork fname none) s)
  | some pid =>
    { emit (event.fork fname (some pid)) s with
      generating := true, children := pid :: s.children }

/-- Body of `ssl_parameter_process_destroyed` (lines 66-69). -/
def ssl_parameter_process_destroyed (_pid : Nat) (s : master) : master :=
  { s with generating := false }

/-- The call `(void)unlink(path)`: best effort, the file is gone afterwards
only when the call succeeds. -/
def unlink (fr : frame) (path : String) (s : master) : master :=
  { emit (event.unlink path) s with
    fs := if fr.unlink_ok then
            (fun p => if p = path then lstat_result.fail ENOENT else s.fs p)
          else s.fs }

/-- The path `t_strconcat(set->login_dir, "/"SSL_PARAMETERS_FILENAME, NULL)`. -/
def parameters_path (env : environment) (set : settings) : String :=
  set.login_dir ++ "/" ++ env.SSL_PARAMETERS_FILENAME

/-- The value of a mathematical integer in a two's-complement `time_t` of
`bits` bits: the representative of `x` modulo `2^bits` that lies between
`-2^(bits-1)` and `2^(bits-1) - 1`. -/
def wrap_time_t (bits : Nat) (x : Int) : Int :=
  (x + ((2 ^ (bits - 1) : Nat) : Int)) % ((2 * 2 ^ (bits - 1) : Nat) : Int) -
    ((2 ^ (bits - 1) : Nat) : Int)

/-- The value assigned to `regen_time` at lines 97-98. The product is computed
in `unsigned int` and wraps modulo `2^32`; the cast `(time_t)(...)` and the
sum with `st.st_mtime` are computed in `time_t` and wrap to its width. -/
def regen_time (env : environment) (set : settings) (st : stat) : Int :=
  if set.ssl_parameters_regenerate = 0 then env.ioloop_time
  else
    wrap_time_t env.time_t_bits
      (st.st_mtime +
        wrap_time_t env.time_t_bits
          ((set.ssl_parameters_regenerate * 3600 % 2 ^ 32 : Nat) : Int))

/-- The condition of the `if` at lines 99-100. -/
def needs_generation (env : environment) (set : settings) (st : stat) : Bool :=
  decide (regen_time env set st < env.ioloop_time) || decide (st.st_size = 0) ||
    decide (st.st_uid ≠ env.master_uid) || decide (st.st_gid ≠ env.egid)

/-- Lines 95-109 of `check_parameters_file_set`, given the contents of `st`
after the `lstat` branch. -/
def check_regen (env : environment) (fr : frame) (set : settings) (path : String)
    (st : stat) (s : master) : Bool × master :=
  if needs_generation env set st then
    (false, start_generate_process fr path
      (if st.st_mtime = 0 then emit event.i_info_first_time s else s))
  else (true, s)

/-- The contents of the local `st` when line 95 is reached, and the state then,
or `none` when the function has returned TRUE at line 85. -/
def stat_branch (fr : frame) (path : String) (s : master) : Option (stat × master) :=
  let s1 := emit (event.lstat path) s
  match s.fs path with
  | lstat_result.fail errno =>
    if errno ≠ ENOENT then none
    else some ({ fr.st with st_mtime := 0 }, s1)
  | lstat_result.ok st =>
    if st.st_size = 0 then some ({ st with st_mtime := 0 }, unlink fr path s1)
    else some (st, s1)

/-- The function `check_parameters_file_set` (lines 71-110): TRUE means nothing
to do for this instance, FALSE means a generation was requested. -/
def check_parameters_file_set (env : environment) (fr : frame) (set : settings)
    (s : master) : Bool × master :=
  if set.ssl_disable then (true, s)
  else
    let path := parameters_path env set
    match stat_branch fr path s with
    | none => (true, emit (event.i_error_lstat path) (emit (event.lstat path) s))
    | some (st, s1) => check_regen env fr set path st s1

/-- One conjunct `x != NULL && !check_parameters_file_set(x)` of the loop body:
the Boolean says whether the loop goes on (no `break`), the number is the index
of the next activation. -/
def check_optional (env : environment) (i : Nat) (o : Option settings) (s : master) :
    Bool × Nat × master :=
  match o with
  | none => (true, i, s)
  | some set =>
    let r := check_parameters_file_set env (env.frames i) set s
    (r.1, i + 1, r.2)

/-- The `for` loop of `check_parameters_file` (lines 119-126) from the node
`server` on; `i` counts the activations made so far in this pass. -/
def check_servers (env : environment) : Nat → List server_settings → master → master
  | _, [], s => s
  | i, server :: next, s =>
    let a := check_optional env i server.imap s
    if a.1 then
      let b := check_optional env a.2.1 server.pop3 a.2.2
      if b.1 then check_servers env b.2.1 next b.2.2 else b.2.2
    else a.2.2

/-- The timer callback `check_parameters_file` (lines 112-127). -/
def check_parameters_file (env : environment) (settings_root : List server_settings)
    (s : master) : master :=
  if s.generating then s else check_servers env 0 settings_root s

/-- The function `ssl_init` (lines 129-137). -/
def ssl_init (env : environment) (settings_root : List server_settings)
    (s : master) : master :=
  check_parameters_file env settings_root
    (emit (event.timeout_add (600 * 1000)) { s with generating := false })

/-- The configured instances in the order the loop visits them: for each
server its imap settings, then its pop3 settings, absent ones left out. -/
def instances : List server_settings → List settings
  | [] => []
  | server :: next => server.imap.toList ++ server.pop3.toList ++ instances next

/-- The verdict on one instance as a function of the filesystem alone: the value
`check_parameters_file_set` returns (TRUE is fresh). -/
def fresh (env : environment) (fs : String → lstat_result) (fr : frame) (set : settings) :
    Bool :=
  (check_parameters_file_set env fr set
    { generating := false, children := [], fs := fs, events := [] }).1

/-- The pass in the words of the specification: inspect the instances in order,
activation `i` first, and stop at the first one whose verdict is not fresh. -/
def first_stale (env : environment) : Nat → List settings → master → master
  | _, [], s => s
  | i, x :: xs, s =>
    if (check_parameters_file_set env (env.frames i) x s).1 then
      first_stale env (i + 1) xs (check_parameters_file_set env (env.frames i) x s).2
    else (check_parameters_file_set env (env.frames i) x s).2

/-- The state after the listed instances have each been inspected once, with
activations `i`, `i+1`, ... in order. -/
def inspect_all (env : environment) : Nat → List settings → master → master
  | _, [], s => s
  | i, x :: xs, s =>
    inspect_all env (i + 1) xs (check_parameters_file_set env (env.frames i) x s).2

/-- An exit notification for a registered child, as delivered by the process
management of the master: the pid leaves the set of registered children and
`ssl_parameter_process_destroyed(pid)` is called. The exit status is not passed
on. -/
def child_exited (pid : Nat) (s : master) : master :=
  ssl_parameter_process_destroyed pid { s with children := s.children.erase pid }

/-- The states the master can be in: `ssl_init` runs once, first, in a process
that has no parameter worker yet; afterwards timer ticks and exit notifications
of registered workers (with any exit status) come in any order, the filesystem
and the inputs of each pass being arbitrary. -/
inductive reachable : master → Prop where
  | init (env : environment) (settings_root : List server_settings) (s0 : master) :
      s0.children = [] → reachable (ssl_init env settings_root s0)
  | tick (env : environment) (settings_root : List server_settings)
      (fs : String → lstat_result) (s : master) :
      reachable s → reachable (check_parameters_file env settings_root { s with fs := fs })
  | child_exit (pid : Nat) (status : Int) (fs : String → lstat_result) (s : master) :
      reachable s → pid ∈ s.children → reachable (child_exited pid { s with fs := fs })

/-- The calls of `fork` recorded in a list of actions, with the file name the
child was to generate and the value returned to the parent. -/
def fork_calls : List event → List (String × Option Nat)
  | [] => []
  | event.fork fname pid :: es => (fname, pid) :: fork_calls es
  | _ :: es => fork_calls es

/-- The worker processes that came into existence: the calls of `fork` that
returned a pid. -/
def workers_launched (es : List event) : List (String × Option Nat) :=
  (fork_calls es).filter (fun c => c.2.isSome)

/-- Sample data: a non-empty parameters file written one minute ago. -/
def sample_stat : stat :=
  { st_size := 128, st_mtime := 1000000 - 60, st_uid := 0, st_gid := 0 }

/-- Sample data: a filesystem holding only that file. -/
def sample_fs : String → lstat_result := fun p =>
  if p = "/var/run/dovecot/login/ssl-parameters.dat" then lstat_result.ok sample_stat
  else lstat_result.fail ENOENT

/-- Sample data: a frame whose `st` buffer happens to hold a non-zero size and
the ids of the master, and in which `unlink` and `fork` succeed. -/
def sample_frame : frame :=
  { st := { st_size := 1, st_mtime := 77, st_uid := 0, st_gid := 0 },
    unlink_ok := true, fork := some 4242 }

/-- Sample data: a frame in which `fork` fails. -/
def sample_frame_nofork : frame :=
  { st := { st_size := 0, st_mtime := 0, st_uid := 5, st_gid := 5 },
    unlink_ok := true, fork := none }

/-- Sample data: the master runs as root at time 1000000. -/
def sample_env : environment :=
  { time_t_bits := 64, ioloop_time := 1000000, master_uid := 0, egid := 0,
    SSL_PARAMETERS_FILENAME := "ssl-parameters.dat", frames := fun _ => sample_frame }

/-- Sample data: an enabled instance regenerating every hour. -/
def sample_set : settings :=
  { ssl_disable := false, login_dir := "/var/run/dovecot/login",
    ssl_parameters_regenerate := 1 }

/-- Sample data: the sample file truncated to size 0. -/
def sample_stat_empty : stat :=
  { st_size := 0, st_mtime := 1000000 - 60, st_uid := 0, st_gid := 0 }

/-- Sample data: an idle master whose cache files all exist with size 0. -/
def sample_master_empty : master :=
  { generating := false, children := [],
    fs := fun _ => lstat_result.ok sample_stat_empty, events := [] }

/-- Sample data: an idle master for which every `lstat` fails with EACCES. -/
def sample_master_eacces : master :=
  { generating := false, children := [], fs := fun _ => lstat_result.fail 13, events := [] }

/-- Sample data: the sample instance with SSL disabled. -/
def sample_set_disabled : settings :=
  { ssl_disable := true, login_dir := "/var/run/dovecot/login",
    ssl_parameters_regenerate := 1 }

/-- Sample data: an enabled instance whose cache file does not exist. -/
def sample_set_missing : settings :=
  { ssl_disable := false, login_dir := "/nonexistent", ssl_parameters_regenerate := 1 }

/-- Sample data: another enabled instance whose cache file does not exist. -/
def sample_set_other : settings :=
  { ssl_disable := false, login_dir := "/other", ssl_parameters_regenerate := 1 }

/-- Sample data: three servers; the first stale instance is the pop3 one of the
second server. -/
def sample_roots : List server_settings :=
  [{ imap := some sample_set_disabled, pop3 := some sample_set },
   { imap := none, pop3 := some sample_set_missing },
   { imap := some sample_set_other, pop3 := none }]

/-- Sample data: an enabled instance with interval 0 whose cache file does not
exist. -/
def sample_set_missing_zero : settings :=
  { ssl_disable := false, login_dir := "/nonexistent", ssl_parameters_regenerate := 0 }

/-- Sample data: the sample environment in which the `st` buffer of every
activation still holds what `lstat` stored for the sample file during an
earlier activation. -/
def sample_env_reused : environment :=
  { time_t_bits := 64, ioloop_time := 1000000, master_uid := 0, egid := 0,
    SSL_PARAMETERS_FILENAME := "ssl-parameters.dat",
    frames := fun _ => { st := sample_stat, unlink_ok := true, fork := some 4242 } }

/-- Sample data: a non-empty file owned by the master whose mtime is the
largest value a 64-bit `time_t` holds. -/
def sample_stat_latest : stat :=
  { st_size := 128, st_mtime := 9223372036854775807, st_uid := 0, st_gid := 0 }

/-- Sample data: an idle master whose cache files all carry that mtime. -/
def sample_master_latest : master :=
  { generating := false, children := [],
    fs := fun _ => lstat_result.ok sample_stat_latest, events := [] }

/-- Sample data: an idle master that has done nothing yet. -/
def sample_master : master :=
  { generating := false, children := [], fs := sample_fs, events := [] }

end SslInit

namespace OpensslCommon

/-- The preprocessor symbols that select code in
`dovecot_openssl_common_global_unref`: the OpenSSL version number, whether
`HAVE_SSL_COMP_FREE_COMPRESSION_METHODS` is defined and whether
`LIBRESSL_VERSION_NUMBER` is defined. -/
structure build where
  OPENSSL_VERSION_NUMBER : Nat
  HAVE_SSL_COMP_FREE_COMPRESSION_METHODS : Bool
  LIBRESSL_VERSION_NUMBER : Bool

/-- The calls into the OpenSSL library made by dovecot-openssl-common.c; an
`ENGINE *` is a number. -/
inductive libcall where
  | CRYPTO_set_mem_functions
  | SSL_library_init
  | SSL_load_error_strings
  | OpenSSL_add_all_algorithms
  | RAND_bytes
  | ENGINE_finish (e : Nat)
  | OBJ_cleanup
  | SSL_COMP_free_compression_methods
  | ENGINE_cleanup
  | EVP_cleanup
  | CRYPTO_cleanup_all_ex_data
  | ERR_remove_state
  | ERR_remove_thread_state
  | ERR_free_strings
  | OPENSSL_cleanup
  | ENGINE_load_builtin_engines
  | ENGINE_by_id (id : String)
  | ENGINE_init (e : Nat)
  | ENGINE_set_default (e : Nat)
  | ENGINE_free (e : Nat)
deriving DecidableEq

/-- The two static variables of the file, `openssl_init_refcount` and
`dovecot_openssl_engine` (`none` is NULL), and the library calls made so far
(oldest first). -/
structure openssl where
  openssl_init_refcount : Int
  dovecot_openssl_engine : Option Nat
  calls : List libcall
deriving DecidableEq

/-- The values at program start: both statics are zero-initialised. -/
def startup : openssl :=
  { openssl_init_refcount := 0, dovecot_openssl_engine := none, calls := [] }

/-- The library calls of lines 62-75, made when the count was not positive. -/
def init_calls : List libcall :=
  [libcall.CRYPTO_set_mem_functions, libcall.SSL_library_init,
    libcall.SSL_load_error_strings, libcall.OpenSSL_add_all_algorithms, libcall.RAND_bytes]

/-- The largest value of a 32-bit `int`. -/
def INT_MAX : Int := 2147483647

/-- The value of a mathematical integer in a 32-bit two's-complement `int`: the
representative modulo `2^32` between `-2^31` and `2^31 - 1`. -/
def wrap_int (x : Int) : Int :=
  (x + 2147483648) % 4294967296 - 2147483648

/-- The function `dovecot_openssl_common_global_ref` (lines 52-76). The test
`openssl_init_refcount++ > 0` looks at the value before the increment; the
increment wraps at `INT_MAX`. -/
def dovecot_openssl_common_global_ref (s : openssl) : openssl :=
  if s.openssl_init_refcount > 0 then
    { s with openssl_init_refcount := wrap_int (s.openssl_init_refcount + 1) }
  else
    { s with openssl_init_refcount := wrap_int (s.openssl_init_refcount + 1),
             calls := s.calls ++ init_calls }

/-- The library calls of lines 89-106, as selected by the preprocessor. -/
def cleanup_calls (b : build) : List libcall :=
  (if b.OPENSSL_VERSION_NUMBER < 0x10001000 then [libcall.OBJ_cleanup] else []) ++
  (if b.HAVE_SSL_COMP_FREE_COMPRESSION_METHODS then
    [libcall.SSL_COMP_free_compression_methods] else []) ++
  [libcall.ENGINE_cleanup, libcall.EVP_cleanup, libcall.CRYPTO_cleanup_all_ex_data] ++
  (if b.OPENSSL_VERSION_NUMBER < 0x10000000 then [libcall.ERR_remove_state]
   else if b.OPENSSL_VERSION_NUMBER < 0x10100000 then [libcall.ERR_remove_thread_state]
   else []) ++
  [libcall.ERR_free_strings] ++
  (if b.OPENSSL_VERSION_NUMBER ≥ 0x10100000 ∧ b.LIBRESSL_VERSION_NUMBER = false then
    [libcall.OPENSSL_cleanup] else [])

/-- The library calls of lines 85-88: the attached engine, if any, is finished. -/
def engine_finish_calls (engine : Option Nat) : List libcall :=
  match engine with
  | some e => [libcall.ENGINE_finish e]
  | none => []

/-- The function `dovecot_openssl_common_global_unref` (lines 78-108); `none`
is the failure of `i_assert(openssl_init_refcount > 0)`. -/
def dovecot_openssl_common_global_unref (b : build) (s : openssl) :
    Option (Bool × openssl) :=
  if s.openssl_init_refcount > 0 then
    if wrap_int (s.openssl_init_refcount - 1) > 0 then
      some (true, { s with openssl_init_refcount := wrap_int (s.openssl_init_refcount - 1) })
    else
      some (false,
        { openssl_init_refcount := wrap_int (s.openssl_init_refcount - 1),
          dovecot_openssl_engine := none,
          calls := s.calls ++ engine_finish_calls s.dovecot_openssl_engine ++
            cleanup_calls b })
  else none

/-- The results of the three library steps of engine selection: `ENGINE_by_id`
(`none` is NULL), `ENGINE_init` and `ENGINE_set_default` (`false` is 0). -/
structure engine_lib where
  ENGINE_by_id : String → Option Nat
  ENGINE_init : Nat → Bool
  ENGINE_set_default : Nat → Bool

/-- The function `dovecot_openssl_common_global_set_engine` (lines 110-135):
the return value, the string stored in `*error_r` (`none` when it is not
written) and the state. -/
def dovecot_openssl_common_global_set_engine (lib : engine_lib) (engine : String)
    (s : openssl) : Int × Option String × openssl :=
  match s.dovecot_openssl_engine with
  | some _ => (1, none, s)
  | none =>
    let s1 : openssl :=
      { s with calls := s.calls ++
          [libcall.ENGINE_load_builtin_engines, libcall.ENGINE_by_id engine] }
    match lib.ENGINE_by_id engine with
    | none => (0, some ("Unknown engine \x27" ++ engine ++ "\x27"), s1)
    | some e =>
      if lib.ENGINE_init e = false then
        (-1, some ("ENGINE_init(" ++ engine ++ ") failed"),
          { s1 with dovecot_openssl_engine := none,
                    calls := s1.calls ++ [libcall.ENGINE_init e, libcall.ENGINE_free e] })
      else if lib.ENGINE_set_default e = false then
        (-1, some ("ENGINE_set_default(" ++ engine ++ ") failed"),
          { s1 with dovecot_openssl_engine := none,
                    calls := s1.calls ++ [libcall.ENGINE_init e,
                      libcall.ENGINE_set_default e, libcall.ENGINE_free e] })
      else
        (1, none,
          { s1 with dovecot_openssl_engine := some e,
                    calls := s1.calls ++ [libcall.ENGINE_init e,
                      libcall.ENGINE_set_default e] })

/-- The states the two statics can be in: from program start, any sequence of
calls of the three functions in which `dovecot_openssl_common_global_unref` is
only called while the count is positive and
`dovecot_openssl_common_global_ref` only while the count is below `INT_MAX`. -/
inductive reachable (b : build) : openssl → Prop where
  | start : reachable b startup
  | ref (s : openssl) : reachable b s → s.openssl_init_refcount < INT_MAX →
      reachable b (dovecot_openssl_common_global_ref s)
  | unref (s : openssl) (r : Bool × openssl) : reachable b s →
      dovecot_openssl_common_global_unref b s = some r → reachable b r.2
  | set_engine (lib : engine_lib) (engine : String) (s : openssl) : reachable b s →
      reachable b (dovecot_openssl_common_global_set_engine lib engine s).2.2

/-- Sample data: OpenSSL 1.0.2 with compression-method cleanup available. -/
def sample_build : build :=
  { OPENSSL_VERSION_NUMBER := 0x1000200f, HAVE_SSL_COMP_FREE_COMPRESSION_METHODS := true,
    LIBRESSL_VERSION_NUMBER := false }

/-- Sample data: a library that knows only the engine "rdrand" (handle 7), whose
initialisation succeeds and whose activation as default fails. -/
def sample_lib : engine_lib :=
  { ENGINE_by_id := fun id => if id = "rdrand" then some 7 else none,
    ENGINE_init := fun _ => true,
    ENGINE_set_default := fun _ => false }

/-- Sample data: a library that knows only the engine "rdrand" (handle 7), for
which all three steps succeed. -/
def sample_lib_ok : engine_lib :=
  { ENGINE_by_id := fun id => if id = "rdrand" then some 7 else none,
    ENGINE_init := fun _ => true,
    ENGINE_set_default := fun _ => true }

/-- Sample data: the state after one ref from program start followed by a
successful selection of the engine "rdrand". -/
def sample_attached : openssl :=
  (dovecot_openssl_common_global_set_engine sample_lib_ok "rdrand"
    (dovecot_openssl_common_global_ref startup)).2.2

end OpensslCommon

namespace SslInit

theorem fork_calls_append (xs ys : List event) :
    fork_calls (xs ++ ys) = fork_calls xs ++ fork_calls ys := by
  induction xs with
  | nil => rfl
  | cons x xs ih => cases x <;> simp [fork_calls, ih]

theorem wrap_time_t_of_fits (bits : Nat) (x : Int)
    (hlo : -((2 ^ (bits - 1) : Nat) : Int) ≤ x) (hhi : x < ((2 ^ (bits - 1) : Nat) : Int)) :
    wrap_time_t bits x = x := by
  unfold wrap_time_t
  generalize (2 ^ (bits - 1) : Nat) = half at hlo hhi ⊢
  rw [Int.emod_eq_of_lt (by omega) (by push_cast; omega)]
  omega

theorem needs_generation_eq_false_iff (env : environment) (set : settings) (st : stat) :
    needs_generation env set st = false ↔
      (env.ioloop_time ≤ regen_time env set st ∧ st.st_size ≠ 0 ∧
        st.st_uid = env.master_uid ∧ st.st_gid = env.egid) := by
  simp [needs_generation, and_assoc]

theorem start_generate_process_events (fr : frame) (fname : String) (s : master) :
    fork_calls (start_generate_process fr fname s).events =
      fork_calls s.events ++ [(fname, fr.fork)] := by
  unfold start_generate_process
  cases h : fr.fork <;> simp [emit, fork_calls_append, fork_calls]

theorem cpfs_of_ok (env : environment) (fr : frame) (set : settings) (s : master)
    (st : stat) (hen : set.ssl_disable = false)
    (hst : s.fs (parameters_path env set) = lstat_result.ok st) (hsize : st.st_size ≠ 0) :
    check_parameters_file_set env fr set s =
      check_regen env fr set (parameters_path env set) st
        (emit (event.lstat (parameters_path env set)) s) := by
  simp [check_parameters_file_set, stat_branch, hen, hst, hsize]

theorem cpfs_of_empty (env : environment) (fr : frame) (set : settings) (s : master)
    (st : stat) (hen : set.ssl_disable = false)
    (hst : s.fs (parameters_path env set) = lstat_result.ok st) (hsize : st.st_size = 0) :
    check_parameters_file_set env fr set s =
      check_regen env fr set (parameters_path env set) { st with st_mtime := 0 }
        (unlink fr (parameters_path env set)
          (emit (event.lstat (parameters_path env set)) s)) := by
  simp [check_parameters_file_set, stat_branch, hen, hst, hsize]

theorem cpfs_of_enoent (env : environment) (fr : frame) (set : settings) (s : master)
    (hen : set.ssl_disable = false)
    (hst : s.fs (parameters_path env set) = lstat_result.fail ENOENT) :
    check_parameters_file_set env fr set s =
      check_regen env fr set (parameters_path env set) { fr.st with st_mtime := 0 }
        (emit (event.lstat (parameters_path env set)) s) := by
  simp [check_parameters_file_set, stat_branch, hen, hst]

theorem cpfs_of_error (env : environment) (fr : frame) (set : settings) (s : master)
    (errno : Nat) (hen : set.ssl_disable = false)
    (hst : s.fs (parameters_path env set) = lstat_result.fail errno)
    (herr : errno ≠ ENOENT) :
    check_parameters_file_set env fr set s =
      (true, emit (event.i_error_lstat (parameters_path env set))
        (emit (event.lstat (parameters_path env set)) s)) := by
  simp [check_parameters_file_set, stat_branch, hen, hst, herr]

theorem check_regen_fst (env : environment) (fr : frame) (set : settings)
    (path : String) (st : stat) (s : master) :
    (check_regen env fr set path st s).1 = !needs_generation env set st := by
  unfold check_regen
  cases needs_generation env set st <;> simp

theorem check_regen_of_fresh (env : environment) (fr : frame) (set : settings)
    (path : String) (st : stat) (s : master)
    (h : (check_regen env fr set path st s).1 = true) :
    (check_regen env fr set path st s).2 = s := by
  unfold check_regen at h ⊢
  cases hn : needs_generation env set st
  · simp
  · simp [hn] at h

theorem check_regen_of_stale (env : environment) (fr : frame) (set : settings)
    (path : String) (st : stat) (s : master)
    (h : (check_regen env fr set path st s).1 = false) :
    (check_regen env fr set path st s).2 =
      start_generate_process fr path
        (if st.st_mtime = 0 then emit event.i_info_first_time s else s) := by
  unfold check_regen at h ⊢
  cases hn : needs_generation env set st
  · simp [hn] at h
  · simp

theorem check_regen_fork_calls (env : environment) (fr : frame) (set : settings)
    (path : String) (st : stat) (s : master)
    (h : (check_regen env fr set path st s).1 = false) :
    fork_calls (check_regen env fr set path st s).2.events =
      fork_calls s.events ++ [(path, fr.fork)] := by
  rw [check_regen_of_stale env fr set path st s h, start_generate_process_events]
  split <;> simp [emit, fork_calls_append, fork_calls]

theorem cpfs_cases (env : environment) (set : settings) (s : master) :
    set.ssl_disable = true ∨
    (set.ssl_disable = false ∧
      ((∃ errno, s.fs (parameters_path env set) = lstat_result.fail errno ∧ errno ≠ ENOENT) ∨
       s.fs (parameters_path env set) = lstat_result.fail ENOENT ∨
       (∃ st, s.fs (parameters_path env set) = lstat_result.ok st ∧ st.st_size = 0) ∨
       (∃ st, s.fs (parameters_path env set) = lstat_result.ok st ∧ st.st_size ≠ 0))) := by
  cases hd : set.ssl_disable
  · right
    refine ⟨rfl, ?_⟩
    cases hf : s.fs (parameters_path env set) with
    | ok st =>
      by_cases hz : st.st_size = 0
      · exact Or.inr (Or.inr (Or.inl ⟨st, rfl, hz⟩))
      · exact Or.inr (Or.inr (Or.inr ⟨st, rfl, hz⟩))
    | fail errno =>
      by_cases he : errno = ENOENT
      · subst he
        exact Or.inr (Or.inl rfl)
      · exact Or.inl ⟨errno, rfl, he⟩
  · exact Or.inl rfl

theorem check_regen_empty_stale (env : environment) (fr : frame) (set : settings)
    (path : String) (st : stat) (s : master) (hsize : st.st_size = 0) :
    (check_regen env fr set path { st with st_mtime := 0 } s).1 = false := by
  simp [check_regen_fst, needs_generation, hsize]

theorem cpfs_fst (env : environment) (fr : frame) (set : settings) (s : master) :
    (check_parameters_file_set env fr set s).1 = fresh env s.fs fr set := by
  unfold fresh
  generalize hs0 : ({ generating := false, children := [], fs := s.fs, events := [] } : master)
    = s0
  have hfs : s0.fs = s.fs := by rw [← hs0]
  rcases cpfs_cases env set s with hd | ⟨hd, ⟨errno, hf, he⟩ | hf | ⟨st, hf, hz⟩ | ⟨st, hf, hz⟩⟩
  · simp [check_parameters_file_set, hd]
  · rw [cpfs_of_error env fr set s errno hd hf he,
      cpfs_of_error env fr set s0 errno hd (by rw [hfs]; exact hf) he]
  · rw [cpfs_of_enoent env fr set s hd hf,
      cpfs_of_enoent env fr set s0 hd (by rw [hfs]; exact hf)]
    simp [check_regen_fst]
  · rw [cpfs_of_empty env fr set s st hd hf hz,
      cpfs_of_empty env fr set s0 st hd (by rw [hfs]; exact hf) hz]
    simp [check_regen_fst]
  · rw [cpfs_of_ok env fr set s st hd hf hz,
      cpfs_of_ok env fr set s0 st hd (by rw [hfs]; exact hf) hz]
    simp [check_regen_fst]

theorem cpfs_fresh_frame (env : environment) (fr : frame) (set : settings) (s : master)
    (h : (check_parameters_file_set env fr set s).1 = true) :
    (check_parameters_file_set env fr set s).2.fs = s.fs ∧
    (check_parameters_file_set env fr set s).2.generating = s.generating ∧
    (check_parameters_file_set env fr set s).2.children = s.children ∧
    fork_calls (check_parameters_file_set env fr set s).2.events = fork_calls s.events := by
  rcases cpfs_cases env set s with hd | ⟨hd, ⟨errno, hf, he⟩ | hf | ⟨st, hf, hz⟩ | ⟨st, hf, hz⟩⟩
  · simp [check_parameters_file_set, hd]
  · rw [cpfs_of_error env fr set s errno hd hf he]
    simp [emit, fork_calls_append, fork_calls]
  · rw [cpfs_of_enoent env fr set s hd hf] at h ⊢
    rw [check_regen_of_fresh _ _ _ _ _ _ h]
    simp [emit, fork_calls_append, fork_calls]
  · rw [cpfs_of_empty env fr set s st hd hf hz, check_regen_empty_stale _ _ _ _ _ _ hz] at h
    exact Bool.noConfusion h
  · rw [cpfs_of_ok env fr set s st hd hf hz] at h ⊢
    rw [check_regen_of_fresh _ _ _ _ _ _ h]
    simp [emit, fork_calls_append, fork_calls]

theorem start_generate_process_frame (fr : frame) (fname : String) (s : master) :
    (start_generate_process fr fname s).generating = (s.generating || fr.fork.isSome) ∧
    (start_generate_process fr fname s).children = fr.fork.toList ++ s.children := by
  unfold start_generate_process
  cases fr.fork <;> simp [emit]

theorem cpfs_stale_frame (env : environment) (fr : frame) (set : settings) (s : master)
    (h : (check_parameters_file_set env fr set s).1 = false) :
    fork_calls (check_parameters_file_set env fr set s).2.events =
      fork_calls s.events ++ [(parameters_path env set, fr.fork)] ∧
    (check_parameters_file_set env fr set s).2.generating =
      (s.generating || fr.fork.isSome) ∧
    (check_parameters_file_set env fr set s).2.children = fr.fork.toList ++ s.children := by
  rcases cpfs_cases env set s with hd | ⟨hd, ⟨errno, hf, he⟩ | hf | ⟨st, hf, hz⟩ | ⟨st, hf, hz⟩⟩
  · simp [check_parameters_file_set, hd] at h
  · rw [cpfs_of_error env fr set s errno hd hf he] at h
    exact Bool.noConfusion h
  · rw [cpfs_of_enoent env fr set s hd hf] at h ⊢
    refine ⟨?_, ?_⟩
    · rw [check_regen_fork_calls _ _ _ _ _ _ h]
      simp [emit, fork_calls_append, fork_calls]
    · rw [check_regen_of_stale _ _ _ _ _ _ h]
      simp [start_generate_process_frame, emit]
  · rw [cpfs_of_empty env fr set s st hd hf hz] at h ⊢
    refine ⟨?_, ?_⟩
    · rw [check_regen_fork_calls _ _ _ _ _ _ h]
      simp [emit, unlink, fork_calls_append, fork_calls]
    · rw [check_regen_of_stale _ _ _ _ _ _ h]
      simp [start_generate_process_frame, emit, unlink]
  · rw [cpfs_of_ok env fr set s st hd hf hz] at h ⊢
    refine ⟨?_, ?_⟩
    · rw [check_regen_fork_calls _ _ _ _ _ _ h]
      simp [emit, fork_calls_append, fork_calls]
    · rw [check_regen_of_stale _ _ _ _ _ _ h]
      split <;> simp [start_generate_process_frame, emit]

theorem check_servers_eq_first_stale (env : environment) (roots : List server_settings) :
    ∀ (i : Nat) (s : master),
      check_servers env i roots s = first_stale env i (instances roots) s := by
  induction roots with
  | nil => intro i s; rfl
  | cons server next ih =>
    intro i s
    cases hi : server.imap with
    | none =>
      cases hp : server.pop3 with
      | none => simp [check_servers, check_optional, instances, hi, hp, ih]
      | some b =>
        simp only [check_servers, check_optional, instances, hi, hp, ih, Option.toList,
          List.nil_append, List.singleton_append, first_stale, if_true]
    | some a =>
      cases hp : server.pop3 with
      | none =>
        simp only [check_servers, check_optional, instances, hi, hp, ih, Option.toList,
          List.append_nil, List.singleton_append, first_stale, if_true]
      | some b =>
        simp only [check_servers, check_optional, instances, hi, hp, ih, Option.toList,
          List.singleton_append, List.cons_append, List.nil_append, first_stale]

theorem inspect_all_fresh (env : environment) (l : List settings) :
    ∀ (i : Nat) (s : master),
      (∀ j y, l[j]? = some y → fresh env s.fs (env.frames (i + j)) y = true) →
        (inspect_all env i l s).fs = s.fs ∧
        (inspect_all env i l s).generating = s.generating ∧
        (inspect_all env i l s).children = s.children ∧
        fork_calls (inspect_all env i l s).events = fork_calls s.events ∧
        first_stale env i l s = inspect_all env i l s := by
  induction l with
  | nil => intro i s _; simp [inspect_all, first_stale]
  | cons x xs ih =>
    intro i s h
    have hx : (check_parameters_file_set env (env.frames i) x s).1 = true := by
      rw [cpfs_fst]
      exact h 0 x (by simp)
    have hfr := cpfs_fresh_frame env (env.frames i) x s hx
    have htail : ∀ j y, xs[j]? = some y →
        fresh env (check_parameters_file_set env (env.frames i) x s).2.fs
          (env.frames (i + 1 + j)) y = true := by
      intro j y hj
      rw [hfr.1, Nat.add_assoc, Nat.add_comm 1 j]
      exact h (j + 1) y (by simpa using hj)
    have := ih (i + 1) (check_parameters_file_set env (env.frames i) x s).2 htail
    simp only [inspect_all, first_stale, hx, if_true]
    exact ⟨this.1.trans hfr.1, this.2.1.trans hfr.2.1, this.2.2.1.trans hfr.2.2.1,
      this.2.2.2.1.trans hfr.2.2.2, this.2.2.2.2⟩

theorem first_stale_split (env : environment) (pre : List settings) (x : settings)
    (post : List settings) :
    ∀ (i : Nat) (s : master),
      (∀ j y, pre[j]? = some y → fresh env s.fs (env.frames (i + j)) y = true) →
      fresh env s.fs (env.frames (i + pre.length)) x = false →
        first_stale env i (pre ++ x :: post) s =
          (check_parameters_file_set env (env.frames (i + pre.length)) x
            (inspect_all env i pre s)).2 := by
  induction pre with
  | nil =>
    intro i s _ hx
    have : (check_parameters_file_set env (env.frames i) x s).1 = false := by
      rw [cpfs_fst]
      simpa using hx
    simp [first_stale, inspect_all, this]
  | cons p ps ih =>
    intro i s h hx
    have hp : (check_parameters_file_set env (env.frames i) p s).1 = true := by
      rw [cpfs_fst]
      exact h 0 p (by simp)
    have hfr := cpfs_fresh_frame env (env.frames i) p s hp
    have htail : ∀ j y, ps[j]? = some y →
        fresh env (check_parameters_file_set env (env.frames i) p s).2.fs
          (env.frames (i + 1 + j)) y = true := by
      intro j y hj
      rw [hfr.1, Nat.add_assoc, Nat.add_comm 1 j]
      exact h (j + 1) y (by simpa using hj)
    have hx2 : fresh env (check_parameters_file_set env (env.frames i) p s).2.fs
        (env.frames (i + 1 + ps.length)) x = false := by
      rw [hfr.1, Nat.add_assoc, Nat.add_comm 1 ps.length]
      simpa using hx
    have := ih (i + 1) (check_parameters_file_set env (env.frames i) p s).2 htail hx2
    have hidx : i + (ps.length + 1) = i + 1 + ps.length := by omega
    show first_stale env i (p :: (ps ++ x :: post)) s = _
    simp only [first_stale, hp, if_true, inspect_all, List.length_cons, hidx]
    exact this

theorem first_stale_fork_calls (env : environment) (l : List settings) :
    ∀ (i : Nat) (s : master),
      ∃ c, fork_calls (first_stale env i l s).events = fork_calls s.events ++ c ∧
        c.length ≤ 1 := by
  induction l with
  | nil => intro i s; exact ⟨[], by simp [first_stale]⟩
  | cons x xs ih =>
    intro i s
    cases hx : (check_parameters_file_set env (env.frames i) x s).1
    · refine ⟨[(parameters_path env x, (env.frames i).fork)], ?_, by simp⟩
      simp only [first_stale, hx, Bool.false_eq_true, if_false]
      exact (cpfs_stale_frame env (env.frames i) x s hx).1
    · obtain ⟨c, hc, hlen⟩ := ih (i + 1) (check_parameters_file_set env (env.frames i) x s).2
      refine ⟨c, ?_, hlen⟩
      simp only [first_stale, hx, if_true]
      rw [hc, (cpfs_fresh_frame env (env.frames i) x s hx).2.2.2]

theorem first_stale_exists (env : environment) (l : List settings) :
    ∀ (i : Nat) (s : master),
      (∃ j y, l[j]? = some y ∧ fresh env s.fs (env.frames (i + j)) y = false) →
        ∃ k x, l[k]? = some x ∧
          fork_calls (first_stale env i l s).events =
            fork_calls s.events ++ [(parameters_path env x, (env.frames (i + k)).fork)] := by
  induction l with
  | nil => intro i s h; obtain ⟨j, y, hj, _⟩ := h; simp at hj
  | cons x xs ih =>
    intro i s h
    cases hx : (check_parameters_file_set env (env.frames i) x s).1
    · refine ⟨0, x, by simp, ?_⟩
      simp only [first_stale, hx, Bool.false_eq_true, if_false]
      exact (cpfs_stale_frame env (env.frames i) x s hx).1
    · have hfr := cpfs_fresh_frame env (env.frames i) x s hx
      obtain ⟨j, y, hj, hy⟩ := h
      cases j with
      | zero =>
        simp only [List.getElem?_cons_zero, Option.some.injEq] at hj
        subst hj
        rw [cpfs_fst] at hx
        rw [Nat.add_zero, hx] at hy
        exact Bool.noConfusion hy
      | succ j =>
        have hex : ∃ j y, xs[j]? = some y ∧
            fresh env (check_parameters_file_set env (env.frames i) x s).2.fs
              (env.frames (i + 1 + j)) y = false := by
          refine ⟨j, y, by simpa using hj, ?_⟩
          rw [hfr.1, Nat.add_assoc, Nat.add_comm 1 j]
          exact hy
        obtain ⟨k, z, hk, hz⟩ :=
          ih (i + 1) (check_parameters_file_set env (env.frames i) x s).2 hex
        refine ⟨k + 1, z, by simpa using hk, ?_⟩
        simp only [first_stale, hx, if_true]
        rw [hz, hfr.2.2.2, Nat.add_assoc, Nat.add_comm 1 k]

theorem cpf_generating (env : environment) (settings_root : List server_settings)
    (s : master) (hg : s.generating = true) :
    check_parameters_file env settings_root s = s := by
  simp [check_parameters_file, hg]

theorem cpf_idle (env : environment) (settings_root : List server_settings)
    (s : master) (hg : s.generating = false) :
    check_parameters_file env settings_root s =
      first_stale env 0 (instances settings_root) s := by
  simp [check_parameters_file, hg, check_servers_eq_first_stale]

theorem cpf_all_fresh (env : environment) (settings_root : List server_settings)
    (s : master) (hg : s.generating = false)
    (hall : ∀ j y, (instances settings_root)[j]? = some y →
      fresh env s.fs (env.frames j) y = true) :
    check_parameters_file env settings_root s =
      inspect_all env 0 (instances settings_root) s ∧
    fork_calls (check_parameters_file env settings_root s).events = fork_calls s.events ∧
    (check_parameters_file env settings_root s).children = s.children ∧
    (check_parameters_file env settings_root s).generating = false := by
  rw [cpf_idle env settings_root s hg]
  have h := inspect_all_fresh env (instances settings_root) 0 s
    (by intro j y hj; rw [Nat.zero_add]; exact hall j y hj)
  rw [h.2.2.2.2]
  exact ⟨rfl, h.2.2.2.1, h.2.2.1, h.2.1.trans hg⟩

theorem cpf_exists_stale (env : environment) (settings_root : List server_settings)
    (s : master) (hg : s.generating = false)
    (hex : ∃ j y, (instances settings_root)[j]? = some y ∧
      fresh env s.fs (env.frames j) y = false) :
    ∃ k x, (instances settings_root)[k]? = some x ∧
      fork_calls (check_parameters_file env settings_root s).events =
        fork_calls s.events ++ [(parameters_path env x, (env.frames k).fork)] := by
  rw [cpf_idle env settings_root s hg]
  have h := first_stale_exists env (instances settings_root) 0 s
    (by obtain ⟨j, y, hj, hy⟩ := hex; exact ⟨j, y, hj, by rw [Nat.zero_add]; exact hy⟩)
  obtain ⟨k, x, hk, hf⟩ := h
  exact ⟨k, x, hk, by rw [hf, Nat.zero_add]⟩

theorem cpf_first_stale (env : environment) (settings_root : List server_settings)
    (s : master) (hg : s.generating = false) (pre : List settings) (x : settings)
    (post : List settings) (hsplit : instances settings_root = pre ++ x :: post)
    (hpre : ∀ j y, pre[j]? = some y → fresh env s.fs (env.frames j) y = true)
    (hx : fresh env s.fs (env.frames pre.length) x = false) :
    check_parameters_file env settings_root s =
      (check_parameters_file_set env (env.frames pre.length) x
        (inspect_all env 0 pre s)).2 ∧
    fork_calls (check_parameters_file env settings_root s).events =
      fork_calls s.events ++ [(parameters_path env x, (env.frames pre.length).fork)] ∧
    workers_launched (check_parameters_file env settings_root s).events =
      workers_launched s.events ++
        (if (env.frames pre.length).fork.isSome then
          [(parameters_path env x, (env.frames pre.length).fork)] else []) ∧
    (check_parameters_file env settings_root s).children =
      (env.frames pre.length).fork.toList ++ s.children ∧
    (check_parameters_file env settings_root s).generating =
      (env.frames pre.length).fork.isSome := by
  rw [cpf_idle env settings_root s hg]
  have hsp := first_stale_split env pre x post 0 s
    (by intro j y hj; rw [Nat.zero_add]; exact hpre j y hj)
    (by rw [Nat.zero_add]; exact hx)
  rw [Nat.zero_add] at hsp
  have hpre2 := inspect_all_fresh env pre 0 s
    (by intro j y hj; rw [Nat.zero_add]; exact hpre j y hj)
  have hstale : (check_parameters_file_set env (env.frames pre.length) x
      (inspect_all env 0 pre s)).1 = false := by
    rw [cpfs_fst, hpre2.1]
    exact hx
  have hfr := cpfs_stale_frame env (env.frames pre.length) x (inspect_all env 0 pre s) hstale
  rw [hsplit, hsp]
  have hfc : fork_calls (check_parameters_file_set env (env.frames pre.length) x
      (inspect_all env 0 pre s)).2.events =
      fork_calls s.events ++ [(parameters_path env x, (env.frames pre.length).fork)] := by
    rw [hfr.1, hpre2.2.2.2.1]
  refine ⟨rfl, hfc, ?_, ?_, ?_⟩
  · unfold workers_launched
    rw [hfc]
    cases (env.frames pre.length).fork <;> simp
  · rw [hfr.2.2, hpre2.2.2.1]
  · rw [hfr.2.1, hpre2.2.1, hg]
    simp

theorem first_stale_idle (env : environment) (l : List settings) :
    ∀ (i : Nat) (s : master), s.generating = false → s.children = [] →
      ((first_stale env i l s).generating = false ∧ (first_stale env i l s).children = []) ∨
      (∃ pid, (first_stale env i l s).generating = true ∧
        (first_stale env i l s).children = [pid]) := by
  induction l with
  | nil => intro i s hg hc; exact Or.inl ⟨hg, hc⟩
  | cons x xs ih =>
    intro i s hg hc
    cases hx : (check_parameters_file_set env (env.frames i) x s).1
    · have hfr := cpfs_stale_frame env (env.frames i) x s hx
      simp only [first_stale, hx, Bool.false_eq_true, if_false]
      rw [hfr.2.1, hfr.2.2, hg, hc]
      cases (env.frames i).fork <;> simp
    · have hfr := cpfs_fresh_frame env (env.frames i) x s hx
      simp only [first_stale, hx, if_true]
      exact ih (i + 1) _ (hfr.2.1.trans hg) (hfr.2.2.1.trans hc)

theorem cpf_keeps_invariant (env : environment) (settings_root : List server_settings)
    (s : master)
    (hinv : (s.generating = true ∧ ∃ pid, s.children = [pid]) ∨
      (s.generating = false ∧ s.children = [])) :
    ((check_parameters_file env settings_root s).generating = true ∧
      ∃ pid, (check_parameters_file env settings_root s).children = [pid]) ∨
    ((check_parameters_file env settings_root s).generating = false ∧
      (check_parameters_file env settings_root s).children = []) := by
  rcases hinv with ⟨hg, hc⟩ | ⟨hg, hc⟩
  · rw [cpf_generating env settings_root s hg]
    exact Or.inl ⟨hg, hc⟩
  · rw [cpf_idle env settings_root s hg]
    rcases first_stale_idle env (instances settings_root) 0 s hg hc with h | ⟨pid, h1, h2⟩
    · exact Or.inr h
    · exact Or.inl ⟨h1, pid, h2⟩

theorem reachable_invariant (s : master) (hr : reachable s) :
    (s.generating = true ∧ ∃ pid, s.children = [pid]) ∨
    (s.generating = false ∧ s.children = []) := by
  induction hr with
  | init env roots s0 h0 =>
    exact cpf_keeps_invariant env roots _ (Or.inr ⟨rfl, by simpa [emit] using h0⟩)
  | tick env roots fs s _ ih =>
    exact cpf_keeps_invariant env roots _ ih
  | child_exit pid status fs s _ hmem ih =>
    right
    rcases ih with ⟨_, q, hq⟩ | ⟨_, hc⟩
    · have hpq : pid = q := by rw [hq] at hmem; simpa using hmem
      subst hpq
      simp [child_exited, ssl_parameter_process_destroyed, hq]
    · rw [hc] at hmem
      simp at hmem

/-- C1 fails as stated: a non-empty file owned by the master whose mtime is the
largest 64-bit `time_t` value, with interval 1 (3600 does not wrap), satisfies
now <= mtime + h*3600 and the ownership conditions, yet the sum overflows
`time_t`, `regen_time` comes out negative, and the function returns FALSE and
forks. -/
theorem fresh_verdict_fails_on_time_t_overflow :
    sample_set.ssl_disable = false ∧
    sample_master_latest.fs (parameters_path sample_env sample_set) =
      lstat_result.ok sample_stat_latest ∧
    0 < sample_stat_latest.st_size ∧
    sample_set.ssl_parameters_regenerate * 3600 < 2 ^ 32 ∧
    sample_env.ioloop_time ≤
      sample_stat_latest.st_mtime + (sample_set.ssl_parameters_regenerate : Int) * 3600 ∧
    sample_stat_latest.st_uid = sample_env.master_uid ∧
    sample_stat_latest.st_gid = sample_env.egid ∧
    regen_time sample_env sample_set sample_stat_latest = -9223372036854772209 ∧
    (check_parameters_file_set sample_env sample_frame sample_set sample_master_latest).1
      = false ∧
    fork_calls (check_parameters_file_set sample_env sample_frame sample_set
      sample_master_latest).2.events =
      [("/var/run/dovecot/login/ssl-parameters.dat", some 4242)] := by
  decide

/-- C1 as amended: for an enabled instance whose cache file exists with size > 0,
and an interval h with h*3600 below 2^32 such that, when h is not 0, h*3600 is
representable in `time_t` and mtime + h*3600 does not overflow `time_t`,
`check_parameters_file_set` returns TRUE exactly when regenTime >= now, the
file uid is the master uid and the file gid is the effective gid, where
regenTime is now for h = 0 and mtime + h*3600 otherwise. When it returns TRUE
only the `lstat` happened (no worker); when it returns FALSE it has called
`start_generate_process` on that path, so exactly one `fork` for that path was
made. With h = 1 and matching ownership, mtime = now-7200 is stale,
mtime = now-60 is fresh and mtime + 3600 = now is fresh; an ownership mismatch
is stale whatever the mtime. -/
theorem check_parameters_file_set_fresh_iff (env : environment) (fr : frame)
    (set : settings) (s : master) (st : stat)
    (hen : set.ssl_disable = false)
    (hst : s.fs (parameters_path env set) = lstat_result.ok st)
    (hsize : 0 < st.st_size)
    (hwrap : set.ssl_parameters_regenerate * 3600 < 2 ^ 32)
    (hfit : set.ssl_parameters_regenerate ≠ 0 →
      (set.ssl_parameters_regenerate : Int) * 3600 <
        ((2 ^ (env.time_t_bits - 1) : Nat) : Int) ∧
      -((2 ^ (env.time_t_bits - 1) : Nat) : Int) ≤
        st.st_mtime + (set.ssl_parameters_regenerate : Int) * 3600 ∧
      st.st_mtime + (set.ssl_parameters_regenerate : Int) * 3600 <
        ((2 ^ (env.time_t_bits - 1) : Nat) : Int)) :
    ((check_parameters_file_set env fr set s).1 = true ↔
      (env.ioloop_time ≤
          (if set.ssl_parameters_regenerate = 0 then env.ioloop_time
           else st.st_mtime + (set.ssl_parameters_regenerate : Int) * 3600) ∧
        st.st_uid = env.master_uid ∧ st.st_gid = env.egid)) ∧
    ((check_parameters_file_set env fr set s).1 = true →
      (check_parameters_file_set env fr set s).2 =
        emit (event.lstat (parameters_path env set)) s) ∧
    ((check_parameters_file_set env fr set s).1 = false →
      (check_parameters_file_set env fr set s).2 =
          start_generate_process fr (parameters_path env set)
            (if st.st_mtime = 0 then
              emit event.i_info_first_time (emit (event.lstat (parameters_path env set)) s)
             else emit (event.lstat (parameters_path env set)) s) ∧
        fork_calls (check_parameters_file_set env fr set s).2.events =
          fork_calls s.events ++ [(parameters_path env set, fr.fork)]) ∧
    (set.ssl_parameters_regenerate = 1 → st.st_uid = env.master_uid →
      st.st_gid = env.egid →
        (st.st_mtime = env.ioloop_time - 7200 →
          (check_parameters_file_set env fr set s).1 = false) ∧
        (st.st_mtime = env.ioloop_time - 60 →
          (check_parameters_file_set env fr set s).1 = true) ∧
        (st.st_mtime + 3600 = env.ioloop_time →
          (check_parameters_file_set env fr set s).1 = true)) ∧
    ((st.st_uid ≠ env.master_uid ∨ st.st_gid ≠ env.egid) →
      (check_parameters_file_set env fr set s).1 = false) := by
  have hne : st.st_size ≠ 0 := by omega
  have hmod : set.ssl_parameters_regenerate * 3600 % 2 ^ 32 =
      set.ssl_parameters_regenerate * 3600 := Nat.mod_eq_of_lt hwrap
  have hreg : regen_time env set st =
      (if set.ssl_parameters_regenerate = 0 then env.ioloop_time
       else st.st_mtime + (set.ssl_parameters_regenerate : Int) * 3600) := by
    unfold regen_time
    rw [hmod]
    by_cases hz : set.ssl_parameters_regenerate = 0
    · simp [hz]
    · obtain ⟨h1, h2, h3⟩ := hfit hz
      simp only [hz, if_false]
      push_cast
      rw [wrap_time_t_of_fits env.time_t_bits _ (by omega) h1,
        wrap_time_t_of_fits env.time_t_bits _ h2 h3]
  have hiff : (check_parameters_file_set env fr set s).1 = true ↔
      (env.ioloop_time ≤
          (if set.ssl_parameters_regenerate = 0 then env.ioloop_time
           else st.st_mtime + (set.ssl_parameters_regenerate : Int) * 3600) ∧
        st.st_uid = env.master_uid ∧ st.st_gid = env.egid) := by
    rw [cpfs_of_ok env fr set s st hen hst hne, ← hreg]
    unfold check_regen
    cases hn : needs_generation env set st
    · have h := (needs_generation_eq_false_iff env set st).1 hn
      simp [h.1, h.2.2.1, h.2.2.2]
    · simp only [if_true, Bool.false_eq_true, false_iff]
      intro h
      have h2 := (needs_generation_eq_false_iff env set st).2 ⟨h.1, hne, h.2.1, h.2.2⟩
      rw [hn] at h2
      exact Bool.noConfusion h2
  refine ⟨hiff, ?_, ?_, ?_, ?_⟩
  · intro h
    rw [cpfs_of_ok env fr set s st hen hst hne] at h ⊢
    unfold check_regen at h ⊢
    cases hn : needs_generation env set st
    · simp
    · simp [hn] at h
  · intro h
    rw [cpfs_of_ok env fr set s st hen hst hne] at h ⊢
    unfold check_regen at h ⊢
    cases hn : needs_generation env set st
    · simp [hn] at h
    · simp only [if_true, true_and]
      rw [start_generate_process_events]
      split <;> simp [emit, fork_calls_append, fork_calls]
  · intro h1 hu hg
    refine ⟨?_, ?_, ?_⟩
    · intro hm
      cases hb : (check_parameters_file_set env fr set s).1
      · rfl
      · have := (hiff.1 hb).1
        simp [h1, hm] at this
        omega
    · intro hm
      exact hiff.2 ⟨by simp [h1, hm]; omega, hu, hg⟩
    · intro hm
      exact hiff.2 ⟨by simp [h1, ← hm], hu, hg⟩
  · intro hmis
    cases hb : (check_parameters_file_set env fr set s).1
    · rfl
    · have := hiff.1 hb
      rcases hmis with h | h
      · exact absurd this.2.1 h
      · exact absurd this.2.2 h

/-- Witness for the amended C1: the sample file, written a minute ago, is
fresh. -/
theorem check_parameters_file_set_fresh_iff_witness :
    sample_set.ssl_disable = false ∧
    sample_master.fs (parameters_path sample_env sample_set) = lstat_result.ok sample_stat ∧
    0 < sample_stat.st_size ∧
    sample_set.ssl_parameters_regenerate * 3600 < 2 ^ 32 ∧
    (sample_set.ssl_parameters_regenerate ≠ 0 →
      (sample_set.ssl_parameters_regenerate : Int) * 3600 <
        ((2 ^ (sample_env.time_t_bits - 1) : Nat) : Int) ∧
      -((2 ^ (sample_env.time_t_bits - 1) : Nat) : Int) ≤
        sample_stat.st_mtime + (sample_set.ssl_parameters_regenerate : Int) * 3600 ∧
      sample_stat.st_mtime + (sample_set.ssl_parameters_regenerate : Int) * 3600 <
        ((2 ^ (sample_env.time_t_bits - 1) : Nat) : Int)) ∧
    (check_parameters_file_set sample_env sample_frame sample_set sample_master).1 = true ∧
    (check_parameters_file_set sample_env sample_frame sample_set sample_master).2 =
      emit (event.lstat (parameters_path sample_env sample_set)) sample_master :=
  ⟨by decide, by decide, by decide, by decide, by decide,
    ((check_parameters_file_set_fresh_iff sample_env sample_frame sample_set sample_master
      sample_stat (by decide) (by decide) (by decide) (by decide) (by decide)).2.2.2.1
        (by decide) (by decide) (by decide)).2.1 (by decide),
    (check_parameters_file_set_fresh_iff sample_env sample_frame sample_set sample_master
      sample_stat (by decide) (by decide) (by decide) (by decide) (by decide)).2.1
        (by decide)⟩

/-- C2 fails as stated: with interval 0, the sample file (non-empty, owned by
the master) is classified fresh and no `fork` is made, although no generation
is in progress. -/
theorem regenerate_zero_existing_file_fresh :
    ({ sample_set with ssl_parameters_regenerate := 0 } : settings).ssl_disable = false ∧
    sample_master.generating = false ∧
    sample_master.fs
        (parameters_path sample_env { sample_set with ssl_parameters_regenerate := 0 }) =
      lstat_result.ok sample_stat ∧
    (check_parameters_file_set sample_env sample_frame
        { sample_set with ssl_parameters_regenerate := 0 } sample_master).1 = true ∧
    fork_calls (check_parameters_file_set sample_env sample_frame
        { sample_set with ssl_parameters_regenerate := 0 } sample_master).2.events = [] := by
  decide

/-- C2 as amended: for an enabled instance with interval 0 and an existing
cache file, `check_parameters_file_set` returns FALSE (and then has made one
`fork` for the path) exactly when the file has size 0 or its uid or gid does
not match; the mtime plays no part, and a non-empty file with matching
ownership is fresh, only the `lstat` having happened. -/
theorem regenerate_zero_stale_iff (env : environment) (fr : frame) (set : settings)
    (s : master) (st : stat)
    (hen : set.ssl_disable = false)
    (hz : set.ssl_parameters_regenerate = 0)
    (hst : s.fs (parameters_path env set) = lstat_result.ok st) :
    ((check_parameters_file_set env fr set s).1 = false ↔
      (st.st_size = 0 ∨ st.st_uid ≠ env.master_uid ∨ st.st_gid ≠ env.egid)) ∧
    ((check_parameters_file_set env fr set s).1 = false →
      fork_calls (check_parameters_file_set env fr set s).2.events =
        fork_calls s.events ++ [(parameters_path env set, fr.fork)]) ∧
    ((check_parameters_file_set env fr set s).1 = true →
      (check_parameters_file_set env fr set s).2 =
        emit (event.lstat (parameters_path env set)) s) := by
  by_cases hsize : st.st_size = 0
  · rw [cpfs_of_empty env fr set s st hen hst hsize]
    have hf : (check_regen env fr set (parameters_path env set) { st with st_mtime := 0 }
        (unlink fr (parameters_path env set)
          (emit (event.lstat (parameters_path env set)) s))).1 = false := by
      simp [check_regen_fst, needs_generation, hsize]
    refine ⟨?_, ?_, by simp [hf]⟩
    · exact ⟨fun _ => Or.inl hsize, fun _ => hf⟩
    intro _
    rw [check_regen_fork_calls _ _ _ _ _ _ hf]
    simp [unlink, emit, fork_calls_append, fork_calls]
  · rw [cpfs_of_ok env fr set s st hen hst hsize]
    refine ⟨?_, ?_, ?_⟩
    · simp only [check_regen_fst, needs_generation, regen_time, hz, if_true, lt_self_iff_false,
        hsize, decide_False, Bool.false_or, Bool.not_eq_false', Bool.or_eq_true,
        decide_eq_true_eq, false_or]
    · intro h
      rw [check_regen_fork_calls _ _ _ _ _ _ h]
      simp [emit, fork_calls_append, fork_calls]
    · intro h
      exact check_regen_of_fresh _ _ _ _ _ _ h

/-- Witness for the amended C2: with interval 0 the sample file is fresh. -/
theorem regenerate_zero_stale_iff_witness :
    ({ sample_set with ssl_parameters_regenerate := 0 } : settings).ssl_disable = false ∧
    ({ sample_set with ssl_parameters_regenerate := 0 } : settings).ssl_parameters_regenerate
      = 0 ∧
    sample_master.fs
        (parameters_path sample_env { sample_set with ssl_parameters_regenerate := 0 }) =
      lstat_result.ok sample_stat ∧
    (check_parameters_file_set sample_env sample_frame
        { sample_set with ssl_parameters_regenerate := 0 } sample_master).2 =
      emit (event.lstat
        (parameters_path sample_env { sample_set with ssl_parameters_regenerate := 0 }))
        sample_master :=
  ⟨by decide, by decide, by decide,
    (regenerate_zero_stale_iff sample_env sample_frame
      { sample_set with ssl_parameters_regenerate := 0 } sample_master sample_stat
      (by decide) (by decide) (by decide)).2.2 (by decide)⟩

/-- C3 fails on the code: for a missing cache file and interval 0 the verdict is
decided by what the never-written `st` buffer happens to hold. With a buffer
holding size 1 and the ids of the master the function returns TRUE and makes no
`fork`; with a buffer holding size 0 it returns FALSE. In a pass over a server
whose imap file is fresh and whose pop3 file is missing, a buffer that still
holds the imap file's data makes the pass end with no `fork` at all. -/
theorem missing_file_verdict_reads_unset_stat :
    sample_set_missing_zero.ssl_disable = false ∧
    sample_master.fs (parameters_path sample_env sample_set_missing_zero) =
      lstat_result.fail ENOENT ∧
    (check_parameters_file_set sample_env sample_frame sample_set_missing_zero
      sample_master).1 = true ∧
    fork_calls (check_parameters_file_set sample_env sample_frame sample_set_missing_zero
      sample_master).2.events = [] ∧
    (check_parameters_file_set sample_env sample_frame_nofork sample_set_missing_zero
      sample_master).1 = false ∧
    (check_parameters_file sample_env_reused
      [{ imap := some sample_set, pop3 := some sample_set_missing_zero }]
      sample_master).events =
      [event.lstat "/var/run/dovecot/login/ssl-parameters.dat",
       event.lstat "/nonexistent/ssl-parameters.dat"] := by
  decide

/-- C4: for an enabled instance whose cache file exists with size exactly 0,
whatever its mtime and ownership, the interval and the clock,
`check_parameters_file_set` returns FALSE; the actions are, in this order, the
`lstat`, the `unlink` of the path, the first-time notice (logged because the
mtime in `st` is 0) and the `fork` for the path; the `st` that reaches the
verdict has mtime 0. -/
theorem zero_size_file_unlinked_then_generated (env : environment) (fr : frame)
    (set : settings) (s : master) (st : stat)
    (hen : set.ssl_disable = false)
    (hst : s.fs (parameters_path env set) = lstat_result.ok st)
    (hsize : st.st_size = 0) :
    (check_parameters_file_set env fr set s).1 = false ∧
    (check_parameters_file_set env fr set s).2 =
      start_generate_process fr (parameters_path env set)
        (emit event.i_info_first_time
          (unlink fr (parameters_path env set)
            (emit (event.lstat (parameters_path env set)) s))) ∧
    (check_parameters_file_set env fr set s).2.events =
      s.events ++
        [event.lstat (parameters_path env set), event.unlink (parameters_path env set),
          event.i_info_first_time, event.fork (parameters_path env set) fr.fork] ++
        (if fr.fork = none then [event.i_error_fork] else []) ∧
    (stat_branch fr (parameters_path env set) s).map (fun r => r.1.st_mtime) = some 0 := by
  rw [cpfs_of_empty env fr set s st hen hst hsize]
  have hf : (check_regen env fr set (parameters_path env set) { st with st_mtime := 0 }
      (unlink fr (parameters_path env set)
        (emit (event.lstat (parameters_path env set)) s))).1 = false := by
    simp [check_regen_fst, needs_generation, hsize]
  refine ⟨hf, ?_, ?_, ?_⟩
  · rw [check_regen_of_stale _ _ _ _ _ _ hf]
    simp
  · rw [check_regen_of_stale _ _ _ _ _ _ hf]
    unfold start_generate_process
    cases hfk : fr.fork <;> simp [emit, unlink]
  · simp [stat_branch, hst, hsize]

/-- Witness for C4: an empty cache file. -/
theorem zero_size_file_unlinked_then_generated_witness :
    sample_set.ssl_disable = false ∧
    sample_master_empty.fs (parameters_path sample_env sample_set) =
      lstat_result.ok sample_stat_empty ∧
    sample_stat_empty.st_size = 0 ∧
    (check_parameters_file_set sample_env sample_frame sample_set sample_master_empty).1
      = false :=
  ⟨by decide, rfl, rfl,
    (zero_size_file_unlinked_then_generated sample_env sample_frame sample_set
      sample_master_empty sample_stat_empty (by decide) rfl rfl).1⟩

/-- C5: for an instance with `ssl_disable` set, whatever the filesystem, the
interval and the clock, `check_parameters_file_set` returns TRUE and leaves the
whole state as it was: no `lstat`, no `unlink`, no `fork`, the `generating`
flag and the registered children unchanged. -/
theorem disabled_instance_untouched (env : environment) (fr : frame) (set : settings)
    (s : master) (hdis : set.ssl_disable = true) :
    check_parameters_file_set env fr set s = (true, s) := by
  simp [check_parameters_file_set, hdis]

/-- Witness for C5: the sample instance with SSL disabled. -/
theorem disabled_instance_untouched_witness :
    ({ sample_set with ssl_disable := true } : settings).ssl_disable = true ∧
    check_parameters_file_set sample_env sample_frame { sample_set with ssl_disable := true }
      sample_master = (true, sample_master) :=
  ⟨rfl, disabled_instance_untouched sample_env sample_frame
    { sample_set with ssl_disable := true } sample_master rfl⟩

/-- C6: for an enabled instance, when `lstat` fails with an errno other than
ENOENT, `check_parameters_file_set` returns TRUE; the only actions are the
`lstat` and the error log, so nothing is unlinked and no `fork` is made, and
the `generating` flag, the registered children and the filesystem are
unchanged, whatever the interval, the ids and the clock. -/
theorem lstat_error_is_fresh (env : environment) (fr : frame) (set : settings)
    (s : master) (errno : Nat)
    (hen : set.ssl_disable = false)
    (hst : s.fs (parameters_path env set) = lstat_result.fail errno)
    (herr : errno ≠ ENOENT) :
    (check_parameters_file_set env fr set s).1 = true ∧
    (check_parameters_file_set env fr set s).2.events =
      s.events ++ [event.lstat (parameters_path env set),
        event.i_error_lstat (parameters_path env set)] ∧
    fork_calls (check_parameters_file_set env fr set s).2.events = fork_calls s.events ∧
    (check_parameters_file_set env fr set s).2.generating = s.generating ∧
    (check_parameters_file_set env fr set s).2.children = s.children ∧
    (check_parameters_file_set env fr set s).2.fs = s.fs := by
  rw [cpfs_of_error env fr set s errno hen hst herr]
  simp [emit, fork_calls_append, fork_calls]

/-- Witness for C6: `lstat` failing with EACCES (13). -/
theorem lstat_error_is_fresh_witness :
    sample_set.ssl_disable = false ∧
    sample_master_eacces.fs (parameters_path sample_env sample_set) = lstat_result.fail 13 ∧
    13 ≠ ENOENT ∧
    (check_parameters_file_set sample_env sample_frame sample_set sample_master_eacces).1
      = true :=
  ⟨by decide, rfl, by decide,
    (lstat_error_is_fresh sample_env sample_frame sample_set sample_master_eacces 13
      (by decide) rfl (by decide)).1⟩

/-- C7: one run of `check_parameters_file` over any server list and filesystem
makes at most one `fork`. If a generation is in progress the state is returned
untouched (nothing is inspected). Otherwise: if every instance (list order,
imap before pop3, absent ones skipped) is fresh, all are inspected and no
`fork` is made; if some instance is not fresh, exactly one `fork` is made; and
for the first instance that is not fresh the result is the state reached by
inspecting the instances before it and then that one, whatever follows it in
the list, the one `fork` is for its path, and when that `fork` succeeds exactly
one worker is launched and registered, and `generating` is set. -/
theorem check_parameters_file_one_worker (env : environment)
    (settings_root : List server_settings) (s : master) :
    (s.generating = true → check_parameters_file env settings_root s = s) ∧
    (s.generating = false →
      (∃ c, fork_calls (check_parameters_file env settings_root s).events =
          fork_calls s.events ++ c ∧ c.length ≤ 1) ∧
      ((∀ j y, (instances settings_root)[j]? = some y →
          fresh env s.fs (env.frames j) y = true) →
        check_parameters_file env settings_root s =
          inspect_all env 0 (instances settings_root) s ∧
        fork_calls (check_parameters_file env settings_root s).events = fork_calls s.events ∧
        (check_parameters_file env settings_root s).children = s.children ∧
        (check_parameters_file env settings_root s).generating = false) ∧
      ((∃ j y, (instances settings_root)[j]? = some y ∧
          fresh env s.fs (env.frames j) y = false) →
        ∃ k x, (instances settings_root)[k]? = some x ∧
          fork_calls (check_parameters_file env settings_root s).events =
            fork_calls s.events ++ [(parameters_path env x, (env.frames k).fork)]) ∧
      (∀ pre x post, instances settings_root = pre ++ x :: post →
        (∀ j y, pre[j]? = some y → fresh env s.fs (env.frames j) y = true) →
        fresh env s.fs (env.frames pre.length) x = false →
          check_parameters_file env settings_root s =
            (check_parameters_file_set env (env.frames pre.length) x
              (inspect_all env 0 pre s)).2 ∧
          fork_calls (check_parameters_file env settings_root s).events =
            fork_calls s.events ++ [(parameters_path env x, (env.frames pre.length).fork)] ∧
          workers_launched (check_parameters_file env settings_root s).events =
            workers_launched s.events ++
              (if (env.frames pre.length).fork.isSome then
                [(parameters_path env x, (env.frames pre.length).fork)] else []) ∧
          (check_parameters_file env settings_root s).children =
            (env.frames pre.length).fork.toList ++ s.children ∧
          (check_parameters_file env settings_root s).generating =
            (env.frames pre.length).fork.isSome)) := by
  refine ⟨cpf_generating env settings_root s, fun hg => ⟨?_, ?_, ?_, ?_⟩⟩
  · rw [cpf_idle env settings_root s hg]
    exact first_stale_fork_calls env _ 0 s
  · exact cpf_all_fresh env settings_root s hg
  · exact cpf_exists_stale env settings_root s hg
  · exact cpf_first_stale env settings_root s hg

/-- Witness for C7: in the sample configuration the disabled and the fresh
instance are passed over, the one `fork` is for the missing file of the second
server, and the third server is never looked at. -/
theorem check_parameters_file_one_worker_witness :
    sample_master.generating = false ∧
    instances sample_roots =
      [sample_set_disabled, sample_set] ++ sample_set_missing :: [sample_set_other] ∧
    fresh sample_env sample_master.fs sample_frame sample_set_missing = false ∧
    (check_parameters_file sample_env sample_roots sample_master).events =
      [event.lstat "/var/run/dovecot/login/ssl-parameters.dat",
       event.lstat "/nonexistent/ssl-parameters.dat",
       event.i_info_first_time,
       event.fork "/nonexistent/ssl-parameters.dat" (some 4242)] ∧
    (check_parameters_file sample_env sample_roots sample_master).children = [4242] :=
  ⟨rfl, by decide, by decide, by decide,
    ((check_parameters_file_one_worker sample_env sample_roots sample_master).2 rfl).2.2.2
      [sample_set_disabled, sample_set] sample_set_missing [sample_set_other] (by decide)
      (by
        intro j y hj
        rcases j with _ | _ | j
        · simp at hj; subst hj; decide
        · simp at hj; subst hj; decide
        · simp at hj)
      (by decide) |>.2.2.2.1⟩

/-- C8: in every state reachable by `ssl_init` (once, first), timer ticks and
exit notifications of registered workers, `generating` is TRUE exactly when one
forked worker has not yet been reported exited and FALSE exactly when there is
none, so at most one worker is outstanding. From such a state: a tick that
finds a stale instance while idle sets `generating` and registers the child
when the `fork` succeeds, and leaves the state idle with no child when it
fails, after which the next tick inspects again and forks again if an instance
is stale; a tick while generating changes nothing; any exit notification of
the worker clears `generating` and leaves no worker. -/
theorem generating_iff_worker_outstanding (s : master) (hr : reachable s) :
    (s.generating = true ↔ s.children.length = 1) ∧
    (s.generating = false ↔ s.children = []) ∧
    s.children.length ≤ 1 ∧
    (s.generating = false →
      ∀ (env : environment) (settings_root : List server_settings)
        (fs : String → lstat_result) (pre : List settings) (x : settings)
        (post : List settings),
        instances settings_root = pre ++ x :: post →
        (∀ j y, pre[j]? = some y → fresh env fs (env.frames j) y = true) →
        fresh env fs (env.frames pre.length) x = false →
          (∀ pid, (env.frames pre.length).fork = some pid →
            (check_parameters_file env settings_root { s with fs := fs }).generating = true ∧
            (check_parameters_file env settings_root { s with fs := fs }).children = [pid]) ∧
          ((env.frames pre.length).fork = none →
            (check_parameters_file env settings_root { s with fs := fs }).generating = false ∧
            (check_parameters_file env settings_root { s with fs := fs }).children = [] ∧
            ∀ (env2 : environment) (fs2 : String → lstat_result),
              (∃ j y, (instances settings_root)[j]? = some y ∧
                fresh env2 fs2 (env2.frames j) y = false) →
              ∃ k z, (instances settings_root)[k]? = some z ∧
                fork_calls (check_parameters_file env2 settings_root
                  { check_parameters_file env settings_root { s with fs := fs } with
                    fs := fs2 }).events =
                fork_calls (check_parameters_file env settings_root
                  { s with fs := fs }).events ++
                  [(parameters_path env2 z, (env2.frames k).fork)])) ∧
    (s.generating = true →
      ∀ (env : environment) (settings_root : List server_settings)
        (fs : String → lstat_result),
        check_parameters_file env settings_root { s with fs := fs } = { s with fs := fs }) ∧
    (∀ (pid : Nat) (fs : String → lstat_result), pid ∈ s.children →
      (child_exited pid { s with fs := fs }).generating = false ∧
      (child_exited pid { s with fs := fs }).children = []) := by
  have hinv := reachable_invariant s hr
  refine ⟨?_, ?_, ?_, ?_, ?_, ?_⟩
  · rcases hinv with ⟨hg, pid, hc⟩ | ⟨hg, hc⟩ <;> simp [hg, hc]
  · rcases hinv with ⟨hg, pid, hc⟩ | ⟨hg, hc⟩ <;> simp [hg, hc]
  · rcases hinv with ⟨hg, pid, hc⟩ | ⟨hg, hc⟩ <;> simp [hc]
  · intro hg env roots fs pre x post hsplit hpre hx
    have hc : s.children = [] := by
      rcases hinv with ⟨hg2, _⟩ | ⟨_, hc⟩
      · rw [hg] at hg2; exact Bool.noConfusion hg2
      · exact hc
    have h := cpf_first_stale env roots { s with fs := fs } hg pre x post hsplit hpre hx
    refine ⟨?_, ?_⟩
    · intro pid hpid
      rw [h.2.2.2.2, h.2.2.2.1, hpid]
      simp [hc]
    · intro hnone
      have hg2 : (check_parameters_file env roots { s with fs := fs }).generating = false := by
        rw [h.2.2.2.2, hnone]; rfl
      refine ⟨hg2, ?_, ?_⟩
      · rw [h.2.2.2.1, hnone]
        simp [hc]
      · intro env2 fs2 hex
        exact cpf_exists_stale env2 roots
          { check_parameters_file env roots { s with fs := fs } with fs := fs2 } hg2 hex
  · intro hg env roots fs
    exact cpf_generating env roots { s with fs := fs } hg
  · intro pid fs hmem
    rcases hinv with ⟨_, q, hq⟩ | ⟨_, hc⟩
    · have hpq : pid = q := by rw [hq] at hmem; simpa using hmem
      subst hpq
      simp [child_exited, ssl_parameter_process_destroyed, hq]
    · rw [hc] at hmem
      simp at hmem

/-- Witness for C8: after `ssl_init` on the sample configuration one worker is
outstanding and `generating` is set. -/
theorem generating_iff_worker_outstanding_witness :
    reachable (ssl_init sample_env sample_roots sample_master) ∧
    (ssl_init sample_env sample_roots sample_master).children = [4242] ∧
    (ssl_init sample_env sample_roots sample_master).generating = true :=
  ⟨reachable.init sample_env sample_roots sample_master rfl, by decide,
    (generating_iff_worker_outstanding _
      (reachable.init sample_env sample_roots sample_master rfl)).1.2 (by decide)⟩

end SslInit

namespace OpensslCommon

theorem wrap_int_of_fits (x : Int) (hlo : -2147483648 ≤ x) (hhi : x ≤ 2147483647) :
    wrap_int x = x := by
  unfold wrap_int
  omega

theorem reachable_count_range (b : build) (s : openssl) (hr : reachable b s) :
    0 ≤ s.openssl_init_refcount ∧ s.openssl_init_refcount ≤ INT_MAX := by
  induction hr with
  | start => simp [startup, INT_MAX]
  | ref s _ hlt ih =>
    have hw : wrap_int (s.openssl_init_refcount + 1) = s.openssl_init_refcount + 1 :=
      wrap_int_of_fits _ (by omega) (by unfold INT_MAX at hlt; omega)
    unfold INT_MAX at hlt ⊢
    unfold dovecot_openssl_common_global_ref
    split <;> simp only [hw] <;> omega
  | unref s r _ hu ih =>
    have hw : 0 < s.openssl_init_refcount →
        wrap_int (s.openssl_init_refcount - 1) = s.openssl_init_refcount - 1 := by
      intro hpos
      exact wrap_int_of_fits _ (by omega) (by have := ih.2; unfold INT_MAX at this; omega)
    unfold INT_MAX at ih ⊢
    unfold dovecot_openssl_common_global_unref at hu
    split at hu
    · rename_i hpos
      split at hu
      · cases hu; simp only [hw hpos]; omega
      · cases hu; simp only [hw hpos]; omega
    · cases hu
  | set_engine lib engine s _ ih =>
    unfold dovecot_openssl_common_global_set_engine
    split
    · exact ih
    · split
      · exact ih
      · split
        · exact ih
        · split <;> exact ih

theorem ref_of_pos (s : openssl) (h : s.openssl_init_refcount > 0) :
    dovecot_openssl_common_global_ref s =
      { s with openssl_init_refcount := wrap_int (s.openssl_init_refcount + 1) } := by
  unfold dovecot_openssl_common_global_ref
  rw [if_pos h]

theorem ref_of_nonpos (s : openssl) (h : ¬ s.openssl_init_refcount > 0) :
    dovecot_openssl_common_global_ref s =
      { s with openssl_init_refcount := wrap_int (s.openssl_init_refcount + 1),
               calls := s.calls ++ init_calls } := by
  unfold dovecot_openssl_common_global_ref
  rw [if_neg h]

theorem ref_iterate (n : Nat) (hn : (n : Int) ≤ INT_MAX) :
    (Nat.iterate dovecot_openssl_common_global_ref n startup).openssl_init_refcount = n ∧
    (Nat.iterate dovecot_openssl_common_global_ref n startup).calls =
      (if n = 0 then [] else init_calls) := by
  induction n with
  | zero => simp [startup]
  | succ k ih =>
    have hk : (k : Int) ≤ INT_MAX := by push_cast at hn; omega
    obtain ⟨hc, hl⟩ := ih hk
    rw [Function.iterate_succ_apply']
    have hw : wrap_int ((k : Int) + 1) = (k : Int) + 1 :=
      wrap_int_of_fits _ (by omega) (by unfold INT_MAX at hn; push_cast at hn; omega)
    generalize Nat.iterate dovecot_openssl_common_global_ref k startup = t at hc hl ⊢
    by_cases hz : k = 0
    · subst hz
      have hnp : ¬ t.openssl_init_refcount > 0 := by rw [hc]; simp
      rw [ref_of_nonpos t hnp]
      simp only [hc, hl]
      simp [wrap_int]
    · have hpos : t.openssl_init_refcount > 0 := by rw [hc]; omega
      rw [ref_of_pos t hpos]
      simp only [hc, hw, hl, hz, if_false]
      constructor
      · push_cast; rfl
      · simp

/-- C9 fails as stated: the sequence of 2^31 calls of
`dovecot_openssl_common_global_ref` from program start, which contains no unref
at all, wraps the `int` count to -2^31; the next ref then runs the library
initialisation again although the count goes from -2^31 to -2^31 + 1. -/
theorem refcount_negative_after_wrap :
    (Nat.iterate dovecot_openssl_common_global_ref 2147483648
      startup).openssl_init_refcount = -2147483648 ∧
    (dovecot_openssl_common_global_ref
      (Nat.iterate dovecot_openssl_common_global_ref 2147483648
        startup)).openssl_init_refcount = -2147483647 ∧
    (dovecot_openssl_common_global_ref
      (Nat.iterate dovecot_openssl_common_global_ref 2147483648 startup)).calls =
      (Nat.iterate dovecot_openssl_common_global_ref 2147483648 startup).calls ++
        [libcall.CRYPTO_set_mem_functions, libcall.SSL_library_init,
          libcall.SSL_load_error_strings, libcall.OpenSSL_add_all_algorithms,
          libcall.RAND_bytes] := by
  have h := ref_iterate 2147483647 (by simp [INT_MAX])
  have hstep : Nat.iterate dovecot_openssl_common_global_ref 2147483648 startup =
      dovecot_openssl_common_global_ref
        (Nat.iterate dovecot_openssl_common_global_ref 2147483647 startup) :=
    Function.iterate_succ_apply' dovecot_openssl_common_global_ref 2147483647 startup
  have hcount : (Nat.iterate dovecot_openssl_common_global_ref 2147483648
      startup).openssl_init_refcount = -2147483648 := by
    rw [hstep]
    generalize Nat.iterate dovecot_openssl_common_global_ref 2147483647 startup = t at h ⊢
    have hpos : t.openssl_init_refcount > 0 := by rw [h.1]; decide
    rw [ref_of_pos t hpos]
    simp only [h.1]
    decide
  generalize Nat.iterate dovecot_openssl_common_global_ref 2147483648 startup = t at hcount ⊢
  have hnp : ¬ t.openssl_init_refcount > 0 := by rw [hcount]; decide
  rw [ref_of_nonpos t hnp]
  refine ⟨hcount, ?_, ?_⟩
  · simp only [hcount]
    decide
  · rfl

/-- C9 as amended: in every state reached from program start by calls of the
three functions, with unref only called while the count is positive and ref
only while it is below INT_MAX, the reference count is between 0 and INT_MAX.
From such a state, ref (below INT_MAX) adds one to the count and makes the five
initialisation calls exactly when the count was 0 (the call that takes it from
0 to 1), and no call otherwise; unref, called with a positive count, passes its
assertion, subtracts one, returns TRUE exactly when the count is still positive
afterwards, and exactly when the count was 1 (the call that takes it to 0)
first calls `ENGINE_finish` on the attached engine, if any, clears the handle
and then makes the cleanup calls selected by the build, making no call and
keeping the handle otherwise. -/
theorem refcount_init_and_teardown (b : build) (s : openssl) (hr : reachable b s) :
    0 ≤ s.openssl_init_refcount ∧ s.openssl_init_refcount ≤ INT_MAX ∧
    (s.openssl_init_refcount < INT_MAX →
      (dovecot_openssl_common_global_ref s).openssl_init_refcount =
        s.openssl_init_refcount + 1 ∧
      (dovecot_openssl_common_global_ref s).dovecot_openssl_engine =
        s.dovecot_openssl_engine ∧
      (dovecot_openssl_common_global_ref s).calls =
        (if s.openssl_init_refcount = 0 then
          s.calls ++
            [libcall.CRYPTO_set_mem_functions, libcall.SSL_library_init,
              libcall.SSL_load_error_strings, libcall.OpenSSL_add_all_algorithms,
              libcall.RAND_bytes]
         else s.calls)) ∧
    (0 < s.openssl_init_refcount →
      ∃ r, dovecot_openssl_common_global_unref b s = some r ∧
        r.2.openssl_init_refcount = s.openssl_init_refcount - 1 ∧
        0 ≤ r.2.openssl_init_refcount ∧
        (r.1 = true ↔ 0 < r.2.openssl_init_refcount) ∧
        (s.openssl_init_refcount = 1 →
          r.2.dovecot_openssl_engine = none ∧
          r.2.calls =
            s.calls ++
              (match s.dovecot_openssl_engine with
               | some e => [libcall.ENGINE_finish e]
               | none => []) ++
              ((if b.OPENSSL_VERSION_NUMBER < 0x10001000 then [libcall.OBJ_cleanup]
                else []) ++
               (if b.HAVE_SSL_COMP_FREE_COMPRESSION_METHODS then
                 [libcall.SSL_COMP_free_compression_methods] else []) ++
               [libcall.ENGINE_cleanup, libcall.EVP_cleanup,
                 libcall.CRYPTO_cleanup_all_ex_data] ++
               (if b.OPENSSL_VERSION_NUMBER < 0x10000000 then [libcall.ERR_remove_state]
                else if b.OPENSSL_VERSION_NUMBER < 0x10100000 then
                  [libcall.ERR_remove_thread_state]
                else []) ++
               [libcall.ERR_free_strings] ++
               (if b.OPENSSL_VERSION_NUMBER ≥ 0x10100000 ∧
                   b.LIBRESSL_VERSION_NUMBER = false then
                 [libcall.OPENSSL_cleanup] else []))) ∧
        (s.openssl_init_refcount ≠ 1 →
          r.2.calls = s.calls ∧
          r.2.dovecot_openssl_engine = s.dovecot_openssl_engine)) := by
  have hrange := reachable_count_range b s hr
  have h0 := hrange.1
  have hmax := hrange.2
  unfold INT_MAX at hmax ⊢
  refine ⟨h0, hmax, ?_, ?_⟩
  · intro hlt
    have hw : wrap_int (s.openssl_init_refcount + 1) = s.openssl_init_refcount + 1 :=
      wrap_int_of_fits _ (by omega) (by omega)
    unfold dovecot_openssl_common_global_ref
    by_cases hz : s.openssl_init_refcount = 0
    · simp [hz, wrap_int, init_calls]
    · have hpos : s.openssl_init_refcount > 0 := by omega
      simp [hz, hpos, hw]
  · intro hpos
    have hw : wrap_int (s.openssl_init_refcount - 1) = s.openssl_init_refcount - 1 :=
      wrap_int_of_fits _ (by omega) (by omega)
    unfold dovecot_openssl_common_global_unref
    rw [hw]
    by_cases h1 : s.openssl_init_refcount - 1 > 0
    · refine ⟨_, by rw [if_pos hpos, if_pos h1], rfl, ?_, ?_, ?_, ?_⟩
      · show 0 ≤ s.openssl_init_refcount - 1
        omega
      · simpa using h1
      · intro h; omega
      · intro _; exact ⟨rfl, rfl⟩
    · refine ⟨_, by rw [if_pos hpos, if_neg h1], rfl, ?_, ?_, ?_, ?_⟩
      · show 0 ≤ s.openssl_init_refcount - 1
        omega
      · show false = true ↔ 0 < s.openssl_init_refcount - 1
        constructor
        · intro h; exact Bool.noConfusion h
        · intro h; exact absurd h h1
      · intro _
        refine ⟨rfl, ?_⟩
        show s.calls ++ engine_finish_calls s.dovecot_openssl_engine ++ cleanup_calls b = _
        unfold engine_finish_calls cleanup_calls
        cases s.dovecot_openssl_engine <;> rfl
      · intro h; omega

/-- Witness for the amended C9: after one ref from program start (the five
initialisation calls) and the attachment of engine 7, unref is the call that
takes the count from 1 to 0: it returns FALSE, and calls `ENGINE_finish 7`
before the cleanup calls. -/
theorem refcount_init_and_teardown_witness :
    reachable sample_build sample_attached ∧
    0 < sample_attached.openssl_init_refcount ∧
    (dovecot_openssl_common_global_ref startup).calls =
      [libcall.CRYPTO_set_mem_functions, libcall.SSL_library_init,
        libcall.SSL_load_error_strings, libcall.OpenSSL_add_all_algorithms,
        libcall.RAND_bytes] ∧
    dovecot_openssl_common_global_unref sample_build sample_attached =
      some (false,
        { openssl_init_refcount := 0, dovecot_openssl_engine := none,
          calls :=
            [libcall.CRYPTO_set_mem_functions, libcall.SSL_library_init,
              libcall.SSL_load_error_strings, libcall.OpenSSL_add_all_algorithms,
              libcall.RAND_bytes,
              libcall.ENGINE_load_builtin_engines, libcall.ENGINE_by_id "rdrand",
              libcall.ENGINE_init 7, libcall.ENGINE_set_default 7,
              libcall.ENGINE_finish 7,
              libcall.SSL_COMP_free_compression_methods, libcall.ENGINE_cleanup,
              libcall.EVP_cleanup, libcall.CRYPTO_cleanup_all_ex_data,
              libcall.ERR_remove_thread_state, libcall.ERR_free_strings] }) ∧
    sample_attached.openssl_init_refcount ≤ INT_MAX :=
  ⟨reachable.set_engine sample_lib_ok "rdrand" _
      (reachable.ref startup reachable.start (by decide)),
    by decide, by decide, by decide,
    (refcount_init_and_teardown sample_build sample_attached
      (reachable.set_engine sample_lib_ok "rdrand" _
        (reachable.ref startup reachable.start (by decide)))).2.1⟩

theorem set_engine_attached (lib : engine_lib) (engine : String) (s : openssl)
    (h : s.dovecot_openssl_engine ≠ none) :
    dovecot_openssl_common_global_set_engine lib engine s = (1, none, s) := by
  unfold dovecot_openssl_common_global_set_engine
  cases he : s.dovecot_openssl_engine with
  | none => exact absurd he h
  | some e => rfl

theorem set_engine_unknown (lib : engine_lib) (engine : String) (s : openssl)
    (hnone : s.dovecot_openssl_engine = none) (hid : lib.ENGINE_by_id engine = none) :
    dovecot_openssl_common_global_set_engine lib engine s =
      (0, some ("Unknown engine \x27" ++ engine ++ "\x27"),
        { s with calls := s.calls ++
            [libcall.ENGINE_load_builtin_engines, libcall.ENGINE_by_id engine] }) := by
  simp [dovecot_openssl_common_global_set_engine, hnone, hid]

theorem set_engine_init_failed (lib : engine_lib) (engine : String) (s : openssl) (e : Nat)
    (hnone : s.dovecot_openssl_engine = none) (hid : lib.ENGINE_by_id engine = some e)
    (hin : lib.ENGINE_init e = false) :
    dovecot_openssl_common_global_set_engine lib engine s =
      (-1, some ("ENGINE_init(" ++ engine ++ ") failed"),
        { s with calls := s.calls ++
            [libcall.ENGINE_load_builtin_engines, libcall.ENGINE_by_id engine,
              libcall.ENGINE_init e, libcall.ENGINE_free e] }) := by
  simp [dovecot_openssl_common_global_set_engine, hnone, hid, hin]

theorem set_engine_default_failed (lib : engine_lib) (engine : String) (s : openssl)
    (e : Nat) (hnone : s.dovecot_openssl_engine = none)
    (hid : lib.ENGINE_by_id engine = some e) (hin : lib.ENGINE_init e = true)
    (hsd : lib.ENGINE_set_default e = false) :
    dovecot_openssl_common_global_set_engine lib engine s =
      (-1, some ("ENGINE_set_default(" ++ engine ++ ") failed"),
        { s with calls := s.calls ++
            [libcall.ENGINE_load_builtin_engines, libcall.ENGINE_by_id engine,
              libcall.ENGINE_init e, libcall.ENGINE_set_default e,
              libcall.ENGINE_free e] }) := by
  simp [dovecot_openssl_common_global_set_engine, hnone, hid, hin, hsd]

theorem set_engine_attaches (lib : engine_lib) (engine : String) (s : openssl)
    (e : Nat) (hnone : s.dovecot_openssl_engine = none)
    (hid : lib.ENGINE_by_id engine = some e) (hin : lib.ENGINE_init e = true)
    (hsd : lib.ENGINE_set_default e = true) :
    dovecot_openssl_common_global_set_engine lib engine s =
      (1, none,
        { s with dovecot_openssl_engine := some e,
                 calls := s.calls ++
                   [libcall.ENGINE_load_builtin_engines, libcall.ENGINE_by_id engine,
                     libcall.ENGINE_init e, libcall.ENGINE_set_default e] }) := by
  simp [dovecot_openssl_common_global_set_engine, hnone, hid, hin, hsd]

theorem set_engine_calls_prefix (lib : engine_lib) (engine : String) (s : openssl)
    (hnone : s.dovecot_openssl_engine = none) :
    s.calls ++ [libcall.ENGINE_load_builtin_engines, libcall.ENGINE_by_id engine] <+:
      (dovecot_openssl_common_global_set_engine lib engine s).2.2.calls := by
  cases hid : lib.ENGINE_by_id engine with
  | none => rw [set_engine_unknown lib engine s hnone hid]
  | some e =>
    cases hin : lib.ENGINE_init e with
    | false =>
      rw [set_engine_init_failed lib engine s e hnone hid hin]
      exact ⟨[libcall.ENGINE_init e, libcall.ENGINE_free e], by simp⟩
    | true =>
      cases hsd : lib.ENGINE_set_default e with
      | false =>
        rw [set_engine_default_failed lib engine s e hnone hid hin hsd]
        exact ⟨[libcall.ENGINE_init e, libcall.ENGINE_set_default e, libcall.ENGINE_free e],
          by simp⟩
      | true =>
        rw [set_engine_attaches lib engine s e hnone hid hin hsd]
        exact ⟨[libcall.ENGINE_init e, libcall.ENGINE_set_default e], by simp⟩

theorem set_engine_failure (lib : engine_lib) (engine : String) (s : openssl)
    (hnone : s.dovecot_openssl_engine = none)
    (hfail : (dovecot_openssl_common_global_set_engine lib engine s).1 ≠ 1) :
    (dovecot_openssl_common_global_set_engine lib engine s).2.2.dovecot_openssl_engine = none ∧
    (dovecot_openssl_common_global_set_engine lib engine s).2.2.openssl_init_refcount =
      s.openssl_init_refcount ∧
    ∃ msg, (dovecot_openssl_common_global_set_engine lib engine s).2.1 = some msg := by
  cases hid : lib.ENGINE_by_id engine with
  | none =>
    rw [set_engine_unknown lib engine s hnone hid]
    exact ⟨hnone, rfl, _, rfl⟩
  | some e =>
    cases hin : lib.ENGINE_init e with
    | false =>
      rw [set_engine_init_failed lib engine s e hnone hid hin]
      exact ⟨hnone, rfl, _, rfl⟩
    | true =>
      cases hsd : lib.ENGINE_set_default e with
      | false =>
        rw [set_engine_default_failed lib engine s e hnone hid hin hsd]
        exact ⟨hnone, rfl, _, rfl⟩
      | true =>
        rw [set_engine_attaches lib engine s e hnone hid hin hsd] at hfail
        exact absurd rfl hfail

theorem unref_last_detached (b : build) (s : openssl)
    (hnone : s.dovecot_openssl_engine = none) (h1 : s.openssl_init_refcount = 1) :
    dovecot_openssl_common_global_unref b s =
      some (false, { openssl_init_refcount := 0, dovecot_openssl_engine := none,
                     calls := s.calls ++ cleanup_calls b }) := by
  have hw : wrap_int 0 = 0 := by decide
  simp [dovecot_openssl_common_global_unref, h1, hnone, engine_finish_calls, hw]

/-- C10: for every engine name and every outcome of the three library steps,
`dovecot_openssl_common_global_set_engine` returns 1 with no library call and
no change when an engine is already attached. Otherwise it returns 1 exactly
when lookup, init and set-default all succeed, and then the engine is attached;
an unknown engine gives 0, a failed init or set-default gives -1 after
`ENGINE_free`, each with an error string containing the engine name; after any
failure no engine is attached, so the next call loads and looks up again and an
unref that takes the count to 0 makes no `ENGINE_finish` call. -/
theorem set_engine_outcomes (lib : engine_lib) (engine : String) (s : openssl) :
    (s.dovecot_openssl_engine ≠ none →
      dovecot_openssl_common_global_set_engine lib engine s = (1, none, s)) ∧
    (s.dovecot_openssl_engine = none →
      ((dovecot_openssl_common_global_set_engine lib engine s).1 = 1 ↔
        ∃ e, lib.ENGINE_by_id engine = some e ∧ lib.ENGINE_init e = true ∧
          lib.ENGINE_set_default e = true) ∧
      (∀ e, lib.ENGINE_by_id engine = some e → lib.ENGINE_init e = true →
        lib.ENGINE_set_default e = true →
          dovecot_openssl_common_global_set_engine lib engine s =
            (1, none,
              { s with dovecot_openssl_engine := some e,
                       calls := s.calls ++
                         [libcall.ENGINE_load_builtin_engines, libcall.ENGINE_by_id engine,
                           libcall.ENGINE_init e, libcall.ENGINE_set_default e] })) ∧
      (lib.ENGINE_by_id engine = none →
        dovecot_openssl_common_global_set_engine lib engine s =
          (0, some ("Unknown engine \x27" ++ engine ++ "\x27"),
            { s with calls := s.calls ++
                [libcall.ENGINE_load_builtin_engines, libcall.ENGINE_by_id engine] })) ∧
      (∀ e, lib.ENGINE_by_id engine = some e → lib.ENGINE_init e = false →
        dovecot_openssl_common_global_set_engine lib engine s =
          (-1, some ("ENGINE_init(" ++ engine ++ ") failed"),
            { s with calls := s.calls ++
                [libcall.ENGINE_load_builtin_engines, libcall.ENGINE_by_id engine,
                  libcall.ENGINE_init e, libcall.ENGINE_free e] })) ∧
      (∀ e, lib.ENGINE_by_id engine = some e → lib.ENGINE_init e = true →
        lib.ENGINE_set_default e = false →
          dovecot_openssl_common_global_set_engine lib engine s =
            (-1, some ("ENGINE_set_default(" ++ engine ++ ") failed"),
              { s with calls := s.calls ++
                  [libcall.ENGINE_load_builtin_engines, libcall.ENGINE_by_id engine,
                    libcall.ENGINE_init e, libcall.ENGINE_set_default e,
                    libcall.ENGINE_free e] })) ∧
      ((dovecot_openssl_common_global_set_engine lib engine s).1 ≠ 1 →
        (dovecot_openssl_common_global_set_engine lib engine s).2.2.dovecot_openssl_engine
          = none ∧
        (∃ msg, (dovecot_openssl_common_global_set_engine lib engine s).2.1 = some msg) ∧
        (∀ lib2 : engine_lib,
          (dovecot_openssl_common_global_set_engine lib engine s).2.2.calls ++
              [libcall.ENGINE_load_builtin_engines, libcall.ENGINE_by_id engine] <+:
            (dovecot_openssl_common_global_set_engine lib2 engine
              (dovecot_openssl_common_global_set_engine lib engine s).2.2).2.2.calls) ∧
        (∀ b : build,
          (dovecot_openssl_common_global_set_engine lib engine s).2.2.openssl_init_refcount
            = 1 →
          dovecot_openssl_common_global_unref b
              (dovecot_openssl_common_global_set_engine lib engine s).2.2 =
            some (false,
              { openssl_init_refcount := 0, dovecot_openssl_engine := none,
                calls := (dovecot_openssl_common_global_set_engine lib engine s).2.2.calls ++
                  cleanup_calls b })))) := by
  refine ⟨set_engine_attached lib engine s, fun hnone => ⟨?_, ?_, ?_, ?_, ?_, ?_⟩⟩
  · constructor
    · intro h1
      cases hid : lib.ENGINE_by_id engine with
      | none =>
        rw [set_engine_unknown lib engine s hnone hid] at h1
        exact absurd h1 (show ¬ ((0 : Int) = 1) by decide)
      | some e =>
        cases hin : lib.ENGINE_init e with
        | false =>
          rw [set_engine_init_failed lib engine s e hnone hid hin] at h1
          exact absurd h1 (show ¬ ((-1 : Int) = 1) by decide)
        | true =>
          cases hsd : lib.ENGINE_set_default e with
          | false =>
            rw [set_engine_default_failed lib engine s e hnone hid hin hsd] at h1
            exact absurd h1 (show ¬ ((-1 : Int) = 1) by decide)
          | true => exact ⟨e, rfl, hin, hsd⟩
    · rintro ⟨e, hid, hin, hsd⟩
      rw [set_engine_attaches lib engine s e hnone hid hin hsd]
  · intro e hid hin hsd
    exact set_engine_attaches lib engine s e hnone hid hin hsd
  · intro hid
    exact set_engine_unknown lib engine s hnone hid
  · intro e hid hin
    exact set_engine_init_failed lib engine s e hnone hid hin
  · intro e hid hin hsd
    exact set_engine_default_failed lib engine s e hnone hid hin hsd
  · intro hfail
    have hf := set_engine_failure lib engine s hnone hfail
    refine ⟨hf.1, hf.2.2, ?_, ?_⟩
    · intro lib2
      exact set_engine_calls_prefix lib2 engine _ hf.1
    · intro b h1
      exact unref_last_detached b _ hf.1 h1

/-- Witness for C10: selecting "rdrand" in the sample library fails at the
set-default step with -1 and leaves no engine attached; selecting an engine
while one is attached returns 1 and changes nothing. -/
theorem set_engine_outcomes_witness :
    startup.dovecot_openssl_engine = none ∧
    dovecot_openssl_common_global_set_engine sample_lib "rdrand" startup =
      (-1, some "ENGINE_set_default(rdrand) failed",
        { openssl_init_refcount := 0, dovecot_openssl_engine := none,
          calls := [libcall.ENGINE_load_builtin_engines, libcall.ENGINE_by_id "rdrand",
            libcall.ENGINE_init 7, libcall.ENGINE_set_default 7, libcall.ENGINE_free 7] }) ∧
    dovecot_openssl_common_global_set_engine sample_lib "rdrand"
        { startup with dovecot_openssl_engine := some 3 } =
      (1, none, { startup with dovecot_openssl_engine := some 3 }) :=
  ⟨rfl,
    (set_engine_outcomes sample_lib "rdrand" startup).2 rfl |>.2.2.2.2.1 7
      (by decide) (by decide) (by decide),
    (set_engine_outcomes sample_lib "rdrand"
      { startup with dovecot_openssl_engine := some 3 }).1 (by decide)⟩

end OpensslCommon
